import Mathlib

/-
Verification of the behavioral event segmentation engine of the NHP-BIDS
repository (src/code/timeevents/curvetracing.py, function process_events).

The segmenter consumes an ordered list of event-log rows, normalizes all
timestamps to the first received MRI trigger, runs a single left-to-right
scan maintaining per-trial state, and returns per-condition event buckets
together with an end-of-useful-data time and a usable-volume count.

Shallow embedding conventions:
  * pandas rows become the structure Row; timestamps are rationals;
  * the payload column (info) is carried both as its raw string and as
    its numeric reading (infoVal), because the source stores the payload
    string as the amplitude of reward events and the final
    pd.DataFrame(..., dtype=float) step coerces it to a number;
  * Python exceptions (IndexError from iloc on an empty selection,
    AssertionError, KeyError from a dict lookup, TypeError from
    subtracting None) become the error type Err in an Except monad;
  * the Python dict split_ev with its sixteen fixed keys becomes the
    structure SplitEv; every append goes through SplitEv.append1, which
    models the dict lookup and raises keyError for an unknown key.
-/

namespace CurveTracing

/-- One row of the event log after pd.read_table: task name, event type,
payload string, the numeric reading of the payload, and two timestamps. -/
structure Row where
  task : String
  event : String
  info : String
  infoVal : Rat
  time_s : Rat
  record_time_s : Rat
deriving DecidableEq, Repr, Inhabited

/-- One output event: onset, duration and amplitude, as produced by the
Event class of the source (the event_num field of the source is never
read nor emitted, so it is omitted). -/
structure Event where
  time_s : Rat
  dur_s : Rat
  amplitude : Rat
deriving DecidableEq, Repr, Inhabited

/-- Event construction as in the source: Event(start_s, stop_s) gives
duration stop_s - start_s, Event(start_s) gives duration 0; the
amplitude argument is passed through (the source defaults it to 1). -/
def mkEvent (start_s : Rat) (stop_s : Option Rat) (amplitude : Rat) : Event :=
  { time_s := start_s
    dur_s := match stop_s with
      | some b => b - start_s
      | none => 0
    amplitude := amplitude }

/-- The ways the Python source can raise, tagged by the raising site:
indexError is iloc on the empty trigger selection, keyError a dict
lookup with an unknown condition name, typeError the subtraction of a
missing (None) fixation onset, and the remaining tags are the assert
statements of the scan in source order. -/
inductive Err where
  | indexError
  | keyError (key : String)
  | unrecognizedFixationInfo
  | missingTarget
  | unknownTask
  | missingStimOn
  | unhandledResponse
  | conflictingRewardEncodings
  | typeError
deriving DecidableEq, Repr

/-- The split_ev dict of the source: the sixteen fixed condition
buckets, in declaration order. -/
structure SplitEv where
  attendUL_COR : List Event
  attendDL_COR : List Event
  attendUR_COR : List Event
  attendDR_COR : List Event
  attendCenter_COR : List Event
  curveFalseHit : List Event
  curveNoResponse : List Event
  curveFixationBreak : List Event
  curveNotCOR : List Event
  preSwitchCurves : List Event
  responseCues : List Event
  handLeft : List Event
  handRight : List Event
  reward : List Event
  fixationTask : List Event
  fixating : List Event
deriving DecidableEq, Repr

/-- The initial split_ev dict: every bucket exists and is empty. -/
def initSplitEv : SplitEv :=
  { attendUL_COR := [], attendDL_COR := [], attendUR_COR := [],
    attendDR_COR := [], attendCenter_COR := [], curveFalseHit := [],
    curveNoResponse := [], curveFixationBreak := [], curveNotCOR := [],
    preSwitchCurves := [], responseCues := [], handLeft := [],
    handRight := [], reward := [], fixationTask := [], fixating := [] }

/-- Dict lookup plus append, modelling split_ev[key].append(e): appending
to a key outside the fixed vocabulary raises KeyError. -/
def SplitEv.append1 (sp : SplitEv) (key : String) (e : Event) :
    Except Err SplitEv :=
  if key = "AttendUL_COR" then .ok { sp with attendUL_COR := sp.attendUL_COR ++ [e] }
  else if key = "AttendDL_COR" then .ok { sp with attendDL_COR := sp.attendDL_COR ++ [e] }
  else if key = "AttendUR_COR" then .ok { sp with attendUR_COR := sp.attendUR_COR ++ [e] }
  else if key = "AttendDR_COR" then .ok { sp with attendDR_COR := sp.attendDR_COR ++ [e] }
  else if key = "AttendCenter_COR" then .ok { sp with attendCenter_COR := sp.attendCenter_COR ++ [e] }
  else if key = "CurveFalseHit" then .ok { sp with curveFalseHit := sp.curveFalseHit ++ [e] }
  else if key = "CurveNoResponse" then .ok { sp with curveNoResponse := sp.curveNoResponse ++ [e] }
  else if key = "CurveFixationBreak" then .ok { sp with curveFixationBreak := sp.curveFixationBreak ++ [e] }
  else if key = "CurveNotCOR" then .ok { sp with curveNotCOR := sp.curveNotCOR ++ [e] }
  else if key = "PreSwitchCurves" then .ok { sp with preSwitchCurves := sp.preSwitchCurves ++ [e] }
  else if key = "ResponseCues" then .ok { sp with responseCues := sp.responseCues ++ [e] }
  else if key = "HandLeft" then .ok { sp with handLeft := sp.handLeft ++ [e] }
  else if key = "HandRight" then .ok { sp with handRight := sp.handRight ++ [e] }
  else if key = "Reward" then .ok { sp with reward := sp.reward ++ [e] }
  else if key = "FixationTask" then .ok { sp with fixationTask := sp.fixationTask ++ [e] }
  else if key = "Fixating" then .ok { sp with fixating := sp.fixating ++ [e] }
  else .error (.keyError key)

/-- The fixed condition-name vocabulary, in the declaration (and hence
output) order of the source dict. -/
def condKeys : List String :=
  ["AttendUL_COR", "AttendDL_COR", "AttendUR_COR", "AttendDR_COR",
   "AttendCenter_COR", "CurveFalseHit", "CurveNoResponse",
   "CurveFixationBreak", "CurveNotCOR", "PreSwitchCurves",
   "ResponseCues", "HandLeft", "HandRight", "Reward", "FixationTask",
   "Fixating"]

/-- The output view of the dict: the sixteen keyed buckets in
declaration order, as iterated by the final loop of the source. -/
def SplitEv.toList (sp : SplitEv) : List (String × List Event) :=
  [("AttendUL_COR", sp.attendUL_COR), ("AttendDL_COR", sp.attendDL_COR),
   ("AttendUR_COR", sp.attendUR_COR), ("AttendDR_COR", sp.attendDR_COR),
   ("AttendCenter_COR", sp.attendCenter_COR),
   ("CurveFalseHit", sp.curveFalseHit),
   ("CurveNoResponse", sp.curveNoResponse),
   ("CurveFixationBreak", sp.curveFixationBreak),
   ("CurveNotCOR", sp.curveNotCOR),
   ("PreSwitchCurves", sp.preSwitchCurves),
   ("ResponseCues", sp.responseCues),
   ("HandLeft", sp.handLeft), ("HandRight", sp.handRight),
   ("Reward", sp.reward), ("FixationTask", sp.fixationTask),
   ("Fixating", sp.fixating)]

/-- Bucket lookup by condition name, the read-only counterpart of
SplitEv.append1: a known key finds its bucket, an unknown key nothing. -/
def SplitEv.get (sp : SplitEv) (key : String) : Option (List Event) :=
  if key = "AttendUL_COR" then some sp.attendUL_COR
  else if key = "AttendDL_COR" then some sp.attendDL_COR
  else if key = "AttendUR_COR" then some sp.attendUR_COR
  else if key = "AttendDR_COR" then some sp.attendDR_COR
  else if key = "AttendCenter_COR" then some sp.attendCenter_COR
  else if key = "CurveFalseHit" then some sp.curveFalseHit
  else if key = "CurveNoResponse" then some sp.curveNoResponse
  else if key = "CurveFixationBreak" then some sp.curveFixationBreak
  else if key = "CurveNotCOR" then some sp.curveNotCOR
  else if key = "PreSwitchCurves" then some sp.preSwitchCurves
  else if key = "ResponseCues" then some sp.responseCues
  else if key = "HandLeft" then some sp.handLeft
  else if key = "HandRight" then some sp.handRight
  else if key = "Reward" then some sp.reward
  else if key = "FixationTask" then some sp.fixationTask
  else if key = "Fixating" then some sp.fixating
  else none

/-- The running state of the single-pass scan, one field per mutable
local of the source loop. -/
structure ScanState where
  split_ev : SplitEv
  last_correct_s : Rat
  curve_target : Option String
  curve_stim_on : Option Rat
  curve_response : Option String
  curve_switched : Bool
  fixation_stim_on : Option Rat
  response_cues_on : Option Rat
  curr_state : Option String
  began_fixation : Option Rat
  has_ManualRewardField : Bool
deriving DecidableEq, Repr

/-- The state at the start of the scan: empty buckets, the -15 sentinel
for the most recent correct trial, and every transient field unset. -/
def initState : ScanState :=
  { split_ev := initSplitEv
    last_correct_s := -15
    curve_target := none
    curve_stim_on := none
    curve_response := none
    curve_switched := false
    fixation_stim_on := none
    response_cues_on := none
    curr_state := none
    began_fixation := none
    has_ManualRewardField := false }

/-- First statement of the loop body: every NewState row updates the
current task-state label, and the SWITCHED label additionally sets the
switched flag. -/
def newStatePass (s : ScanState) (r : Row) : ScanState :=
  if r.event = "NewState" then
    { s with curr_state := some r.info
             curve_switched :=
               if r.info = "SWITCHED" then true else s.curve_switched }
  else s

/-- Second statement of the loop body: fixation in/out tracking. An Out
row closes any open fixation interval into the Fixating bucket and
clears the onset; an In row records the onset; any other payload is the
fatal assert of the source. -/
def fixationPass (s : ScanState) (r : Row) : Except Err ScanState :=
  if r.event = "Fixation" then
    if r.info = "Out" then
      match s.began_fixation with
      | some b =>
        match s.split_ev.append1 "Fixating" (mkEvent b (some r.time_s) 1) with
        | .error e => .error e
        | .ok sp => .ok { s with split_ev := sp, began_fixation := none }
      | none => .ok { s with began_fixation := none }
    else if r.info = "In" then
      .ok { s with began_fixation := some r.time_s }
    else .error .unrecognizedFixationInfo
  else .ok s

/-- Formatting of the active target into the condition name, as done by
the %-interpolation of the source (an unset target prints as None). -/
def targetNameOf (o : Option String) : String :=
  match o with
  | some t => t
  | none => "None"

/-- The classification if/elif chain of the trial-resolution branch:
from the latched response outcome, the switched flag, the formatted
target name, the current most-recent-correct time and the current row
time, produce the classified bucket name and the updated
most-recent-correct time, or raise for an unhandled outcome value. -/
def classify (resp : Option String) (switched : Bool) (targetName : String)
    (lc now : Rat) : Except Err (String × Rat) :=
  if resp = some "INCORRECT" then
    .ok ("CurveFalseHit", lc)
  else if resp = none then
    .ok (if switched then "CurveNoResponse" else "CurveFixationBreak", lc)
  else if resp = some "FixationBreak" then
    .ok ("CurveFixationBreak", lc)
  else if resp = some "CORRECT" then
    .ok ("Attend" ++ targetName ++ "_COR", now)
  else .error .unhandledResponse

/-- Trial-resolution branch of the chain, run for a POSTSWITCH state of
a non-fixation task: validate the task name against the closed set,
emit PreSwitchCurves, classify the latched response, emit the
classified event (duplicated into CurveNotCOR when not correct), update
the most-recent-correct time on a correct outcome, and emit
ResponseCues when a response window was opened. -/
def postswitchPass (s : ScanState) (r : Row) : Except Err ScanState :=
  if ¬ (r.task = "Curve tracing" ∨ r.task = "Control CT" ∨
        r.task = "Catch CT" ∨ r.task.toLower = "keep busy") then
    .error .unknownTask
  else
    match s.curve_stim_on with
    | none => .error .missingStimOn
    | some t0 =>
      match s.split_ev.append1 "PreSwitchCurves" (mkEvent t0 (some r.time_s) 1) with
      | .error e => .error e
      | .ok sp =>
        match classify s.curve_response s.curve_switched
            (targetNameOf s.curve_target) s.last_correct_s r.time_s with
        | .error e => .error e
        | .ok et =>
          match sp.append1 et.1 (mkEvent t0 (some r.time_s) 1) with
          | .error e => .error e
          | .ok sp2 =>
            match (if et.1 = "CurveFalseHit" ∨ et.1 = "CurveNoResponse" ∨
                      et.1 = "CurveFixationBreak" then
                     sp2.append1 "CurveNotCOR" (mkEvent t0 (some r.time_s) 1)
                   else .ok sp2) with
            | .error e => .error e
            | .ok sp3 =>
              match (match s.response_cues_on with
                     | some rc =>
                       sp3.append1 "ResponseCues" (mkEvent rc (some r.time_s) 1)
                     | none => .ok sp3) with
              | .error e => .error e
              | .ok sp4 =>
                .ok { s with split_ev := sp4, last_correct_s := et.2 }

/-- The single if/elif chain of the loop body, from TargetLoc through
the two manual-reward encodings, in source order. -/
def chainPass (s : ScanState) (r : Row) : Except Err ScanState :=
  if r.event = "TargetLoc" then
    .ok { s with curve_target := some r.info }
  else if r.event = "NewState" ∧ r.info = "TRIAL_END" then
    .ok { s with curve_target := none, curve_stim_on := none,
                 curve_response := none, curve_switched := false,
                 fixation_stim_on := none, response_cues_on := none }
  else if r.event = "NewState" ∧ r.info = "PRESWITCH" then
    if s.curve_target = none then .error .missingTarget
    else .ok { s with curve_stim_on := some r.time_s }
  else if r.task = "Fixation" ∧ r.event = "NewState" ∧ r.info = "FIXATION_PERIOD" then
    .ok { s with fixation_stim_on := some r.time_s }
  else if r.task = "Fixation" ∧ r.event = "NewState" ∧ r.info = "POSTFIXATION" then
    match s.fixation_stim_on with
    | none => .error .typeError
    | some b =>
      match s.split_ev.append1 "FixationTask" (mkEvent b (some r.time_s) 1) with
      | .error e => .error e
      | .ok sp => .ok { s with split_ev := sp }
  else if r.event = "NewState" ∧ r.info = "SWITCHED" then
    .ok { s with response_cues_on := some r.time_s }
  else if r.event = "NewState" ∧ r.info = "POSTSWITCH" ∧ r.task ≠ "Fixation" then
    postswitchPass s r
  else if r.event = "ResponseGiven" ∧ s.curve_response = none then
    .ok { s with curve_response := some r.info }
  else if r.event = "Response_Initiate" then
    match s.split_ev.append1 ("Hand" ++ r.info) (mkEvent r.time_s none 1) with
    | .error e => .error e
    | .ok sp => .ok { s with split_ev := sp }
  else if r.event = "ResponseReward" ∨ r.event = "TaskReward" then
    match s.split_ev.append1 "Reward" (mkEvent r.time_s none r.infoVal) with
    | .error e => .error e
    | .ok sp => .ok { s with split_ev := sp }
  else if r.event = "ManualReward" then
    match s.split_ev.append1 "Reward" (mkEvent r.time_s none r.infoVal) with
    | .error e => .error e
    | .ok sp => .ok { s with split_ev := sp, has_ManualRewardField := true }
  else if r.event = "Reward" ∧ r.info = "Manual" then
    match s.split_ev.append1 "Reward" (mkEvent r.time_s none 0.04) with
    | .error e => .error e
    | .ok sp =>
      if s.has_ManualRewardField then .error .conflictingRewardEncodings
      else .ok { s with split_ev := sp }
  else
    .ok s

/-- One iteration of the scan loop of process_events, mirroring the
source statement by statement: the unconditional NewState update, then
the unconditional fixation in/out tracking, then the if/elif chain. -/
def step (s0 : ScanState) (r : Row) : Except Err ScanState :=
  match fixationPass (newStatePass s0 r) r with
  | .error e => .error e
  | .ok s2 => chainPass s2 r

/-- The scan loop: fold step over the rows, stopping at the first
raised error. -/
def scanFrom (s : ScanState) : List Row → Except Err ScanState
  | [] => .ok s
  | r :: rs =>
    match step s r with
    | .error e => .error e
    | .ok s2 => scanFrom s2 rs

/-- First row whose event type is the received MRI trigger, as selected
by the boolean mask of the source. -/
def findTrigger (rows : List Row) : Option Row :=
  rows.find? (fun r => r.event == "MRI_Trigger" && r.info == "Received")

/-- Timestamp normalization: subtract the first received trigger time
from every timestamp and record timestamp; with no trigger row the
iloc access of the source raises IndexError. -/
def normalizeRows (rows : List Row) : Except Err (List Row) :=
  match findTrigger rows with
  | none => .error .indexError
  | some trig =>
    .ok (rows.map (fun r =>
      { r with time_s := r.time_s - trig.time_s
               record_time_s := r.record_time_s - trig.time_s }))

/-- Python int() applied to a rational: truncation toward zero, written
with floors (for a negative argument the truncation toward zero is the
negated floor of the negated argument). -/
def pyInt (q : Rat) : Int :=
  if q < 0 then -Rat.floor (-q) else Rat.floor q

/-- The output triple of process_events: the keyed condition buckets,
the end-of-useful-data time, and the usable-volume count. -/
abbrev Output := List (String × List Event) × Rat × Int

/-- The event segmenter process_events: normalize to the trigger, scan
all rows, then derive the end time as min(last correct + 15, final row
time) and the usable-volume count as min(int(end time / TR), in_nvols). -/
def process_events (event_log : List Row) (TR : Rat) (in_nvols : Int) :
    Except Err Output :=
  match normalizeRows event_log with
  | .error e => .error e
  | .ok events =>
    match scanFrom initState events with
    | .error e => .error e
    | .ok st =>
      let end_time_s := min (st.last_correct_s + 15)
        ((events.getLastD default).time_s)
      let nvols := min (pyInt (end_time_s / TR)) in_nvols
      .ok (st.split_ev.toList, end_time_s, nvols)

/-- Row constructor helper for concrete logs: task, event type, payload
string, numeric payload reading, timestamp (the record timestamp is set
equal to the timestamp). -/
def mkRow (task event info : String) (v t : Rat) : Row :=
  { task := task, event := event, info := info, infoVal := v,
    time_s := t, record_time_s := t }

/-- A trigger-received row at time zero, used by the concrete logs. -/
def trigRow : Row := mkRow "" "MRI_Trigger" "Received" 0 0

/-- Minimal log: only the trigger row; the run succeeds with zero
correct trials, end time 0 and usable-volume count 0. -/
def demoLog : List Row := [trigRow]

/-- Log holding both manual-reward encodings with the legacy
(Reward, Manual) row first: the conflicting-encoding check does not
fire in this order. -/
def c2log : List Row :=
  [trigRow, mkRow "" "Reward" "Manual" 0 1, mkRow "" "ManualReward" "0.1" 0.1 2]

/-- Time-sorted log whose single correct trial precedes the trigger
row, so the derived end time is negative: the trial rows run from 70 to
80 and the trigger arrives at 100. -/
def c4log : List Row :=
  [mkRow "Curve tracing" "TargetLoc" "UL" 0 70,
   mkRow "Curve tracing" "NewState" "PRESWITCH" 0 75,
   mkRow "Curve tracing" "ResponseGiven" "CORRECT" 0 78,
   mkRow "Curve tracing" "NewState" "POSTSWITCH" 0 80,
   mkRow "" "MRI_Trigger" "Received" 0 100]

/-- Log whose fixation-out row carries an earlier timestamp than the
fixation-in row that opened the interval. -/
def c7log : List Row :=
  [trigRow, mkRow "" "Fixation" "In" 0 10, mkRow "" "Fixation" "Out" 0 5]

/-- Log with two left-hand response initiations whose timestamps
decrease in row order. -/
def c8log : List Row :=
  [trigRow, mkRow "" "Response_Initiate" "Left" 0 10,
   mkRow "" "Response_Initiate" "Left" 0 5]

/-- Log reaching a Fixation-task POSTFIXATION state with no recorded
fixation-period onset. -/
def c10log : List Row :=
  [trigRow, mkRow "Fixation" "NewState" "POSTFIXATION" 0 5]

/-- Single-trial log used by witnesses: target UL set at 3, stimulus
onset at 5, a correct response at 8, trial resolution at 10. -/
def scenALog : List Row :=
  [trigRow,
   mkRow "Curve tracing" "TargetLoc" "UL" 0 3,
   mkRow "Curve tracing" "NewState" "PRESWITCH" 0 5,
   mkRow "Curve tracing" "ResponseGiven" "CORRECT" 0 8,
   mkRow "Curve tracing" "NewState" "POSTSWITCH" 0 10,
   mkRow "Curve tracing" "NewState" "TRIAL_END" 0 11]

/-- End-time projection of a segmenter result. -/
def getEnd (res : Except Err Output) : Option Rat :=
  match res with
  | .ok out => some out.2.1
  | .error _ => none

/-- Usable-volume projection of a segmenter result. -/
def getNvols (res : Except Err Output) : Option Int :=
  match res with
  | .ok out => some out.2.2
  | .error _ => none

/-- Bucket lookup in a segmenter result. -/
def getBucket (res : Except Err Output) (key : String) : Option (List Event) :=
  match res with
  | .ok out => out.1.lookup key
  | .error _ => none

/-- Whether the segmenter returned without raising. -/
def isOkB (res : Except Err Output) : Bool :=
  match res with
  | .ok _ => true
  | .error _ => false

/-- Condition-name keys of a segmenter result, in output order. -/
def getKeys (res : Except Err Output) : Option (List String) :=
  match res with
  | .ok out => some (out.1.map Prod.fst)
  | .error _ => none

/-- Log with no trigger-received row at all. -/
def c9log : List Row := [mkRow "" "NewState" "TRIAL_END" 0 1]

/-- Spec-side description of the most-recent-correct-trial tracking, for
the refinement comparison of the end-time derivation: the pair carried
along the log is (time of the most recent correct trial outcome,
latched response outcome of the current trial). A TRIAL_END transition
clears the latch, a POSTSWITCH transition of a non-fixation task with
latched outcome CORRECT moves the correct-trial time to now, and the
first response-outcome marker of a trial is latched. -/
def projStep (p : Rat × Option String) (r : Row) : Rat × Option String :=
  if r.event = "NewState" ∧ r.info = "TRIAL_END" then (p.1, none)
  else if r.event = "NewState" ∧ r.info = "POSTSWITCH" ∧ r.task ≠ "Fixation" then
    (if p.2 = some "CORRECT" then r.time_s else p.1, p.2)
  else if r.event = "ResponseGiven" ∧ p.2 = none then (p.1, some r.info)
  else p

/-- Spec-side most-recent-correct-trial time over a whole normalized
log, starting from the -15 sentinel with no latched response. -/
def specLastCorrect (rows : List Row) : Rat :=
  (rows.foldl projStep (-15, none)).1

/-- The eight classification buckets a POSTSWITCH trial resolution can
select among. -/
def classKeys : List String :=
  ["AttendUL_COR", "AttendDL_COR", "AttendUR_COR", "AttendDR_COR",
   "AttendCenter_COR", "CurveFalseHit", "CurveNoResponse",
   "CurveFixationBreak"]

/-- Required behavior of one POSTSWITCH trial resolution of a
non-fixation task with stimulus onset t0 and active target tg: the
latched outcome selects exactly one classification bucket, which
receives exactly one event spanning t0 to now; the three non-correct
classifications duplicate that event into CurveNotCOR while the correct
classification leaves CurveNotCOR unchanged and moves the most recent
correct time to now; every other latched outcome value is fatal. -/
def PostswitchSpec (s : ScanState) (r : Row) (t0 : Rat) (tg : String) : Prop :=
  (s.curve_response = some "CORRECT" →
    ∃ s2, step s r = .ok s2 ∧
      s2.split_ev.get ("Attend" ++ tg ++ "_COR") =
        (s.split_ev.get ("Attend" ++ tg ++ "_COR")).map
          (fun l => l ++ [mkEvent t0 (some r.time_s) 1]) ∧
      s2.split_ev.curveNotCOR = s.split_ev.curveNotCOR ∧
      s2.last_correct_s = r.time_s ∧
      (∀ k ∈ classKeys, k ≠ "Attend" ++ tg ++ "_COR" →
        s2.split_ev.get k = s.split_ev.get k)) ∧
  (s.curve_response = some "INCORRECT" →
    ∃ s2, step s r = .ok s2 ∧
      s2.split_ev.curveFalseHit =
        s.split_ev.curveFalseHit ++ [mkEvent t0 (some r.time_s) 1] ∧
      s2.split_ev.curveNotCOR =
        s.split_ev.curveNotCOR ++ [mkEvent t0 (some r.time_s) 1] ∧
      (∀ k ∈ classKeys, k ≠ "CurveFalseHit" →
        s2.split_ev.get k = s.split_ev.get k)) ∧
  (s.curve_response = none → s.curve_switched = true →
    ∃ s2, step s r = .ok s2 ∧
      s2.split_ev.curveNoResponse =
        s.split_ev.curveNoResponse ++ [mkEvent t0 (some r.time_s) 1] ∧
      s2.split_ev.curveNotCOR =
        s.split_ev.curveNotCOR ++ [mkEvent t0 (some r.time_s) 1] ∧
      (∀ k ∈ classKeys, k ≠ "CurveNoResponse" →
        s2.split_ev.get k = s.split_ev.get k)) ∧
  (s.curve_response = none → s.curve_switched = false →
    ∃ s2, step s r = .ok s2 ∧
      s2.split_ev.curveFixationBreak =
        s.split_ev.curveFixationBreak ++ [mkEvent t0 (some r.time_s) 1] ∧
      s2.split_ev.curveNotCOR =
        s.split_ev.curveNotCOR ++ [mkEvent t0 (some r.time_s) 1] ∧
      (∀ k ∈ classKeys, k ≠ "CurveFixationBreak" →
        s2.split_ev.get k = s.split_ev.get k)) ∧
  (s.curve_response = some "FixationBreak" →
    ∃ s2, step s r = .ok s2 ∧
      s2.split_ev.curveFixationBreak =
        s.split_ev.curveFixationBreak ++ [mkEvent t0 (some r.time_s) 1] ∧
      s2.split_ev.curveNotCOR =
        s.split_ev.curveNotCOR ++ [mkEvent t0 (some r.time_s) 1] ∧
      (∀ k ∈ classKeys, k ≠ "CurveFixationBreak" →
        s2.split_ev.get k = s.split_ev.get k)) ∧
  (∀ v, s.curve_response = some v → v ≠ "CORRECT" → v ≠ "INCORRECT" →
    v ≠ "FixationBreak" → step s r = .error .unhandledResponse)

/-- Scan state used by the trial-resolution witness: target UL,
stimulus onset 5, a latched correct response and an open response
window from 7. -/
def c1state : ScanState :=
  { initState with curve_stim_on := some 5, curve_target := some "UL",
                   curve_response := some "CORRECT",
                   response_cues_on := some 7 }

/-- POSTSWITCH row at time 10 used by the trial-resolution witness. -/
def c1row : Row := mkRow "Curve tracing" "NewState" "POSTSWITCH" 0 10

/-- Onset times of a bucket are non-decreasing in append order. -/
def OnsetsMono (l : List Event) : Prop :=
  l.Pairwise (fun a b => a.time_s ≤ b.time_s)

/-- Per-event well-formedness over log L: nonnegative duration, and
amplitude 1 outside the Reward bucket while inside it the amplitude is
the legacy default 0.04 or the numeric payload of some reward row. -/
def DurAmpP (L : List Row) (k : String) (e : Event) : Prop :=
  0 ≤ e.dur_s ∧
  (k ≠ "Reward" → e.amplitude = 1) ∧
  (k = "Reward" → e.amplitude = 0.04 ∨ ∃ rr, rr ∈ L ∧
    (rr.event = "ResponseReward" ∨ rr.event = "TaskReward" ∨
     rr.event = "ManualReward") ∧ e.amplitude = rr.infoVal)

/-- Onsets of the bucket never exceed the recorded source time. -/
def UB (l : List Event) (o : Option Rat) : Prop :=
  ∀ v, o = some v → ∀ e ∈ l, e.time_s ≤ v

/-- A recorded optional time is bounded by t. -/
def OptLe (o : Option Rat) (t : Rat) : Prop :=
  ∀ v, o = some v → v ≤ t

/-- Well-formedness of one bucket named k at running time bound t with
recorded source time src: onsets are non-decreasing and bounded by t
and by src, and every event satisfies the duration/amplitude
discipline. -/
def BucketOK (L : List Row) (k : String) (l : List Event) (t : Rat)
    (src : Option Rat) : Prop :=
  OnsetsMono l ∧ (∀ e ∈ l, e.time_s ≤ t ∧ DurAmpP L k e) ∧ UB l src

/-- The scan invariant at running time bound t over normalized log L:
each of the sixteen buckets is well-formed, the ten curve-trial buckets
are bounded by the stimulus onset, the fixation, fixation-task and
response-cue buckets by their own recorded onsets, and every recorded
onset is bounded by t. -/
structure Inv (L : List Row) (t : Rat) (s : ScanState) : Prop where
  hUL : BucketOK L "AttendUL_COR" s.split_ev.attendUL_COR t s.curve_stim_on
  hDL : BucketOK L "AttendDL_COR" s.split_ev.attendDL_COR t s.curve_stim_on
  hUR : BucketOK L "AttendUR_COR" s.split_ev.attendUR_COR t s.curve_stim_on
  hDR : BucketOK L "AttendDR_COR" s.split_ev.attendDR_COR t s.curve_stim_on
  hCe : BucketOK L "AttendCenter_COR" s.split_ev.attendCenter_COR t s.curve_stim_on
  hFH : BucketOK L "CurveFalseHit" s.split_ev.curveFalseHit t s.curve_stim_on
  hNR : BucketOK L "CurveNoResponse" s.split_ev.curveNoResponse t s.curve_stim_on
  hFB : BucketOK L "CurveFixationBreak" s.split_ev.curveFixationBreak t s.curve_stim_on
  hNC : BucketOK L "CurveNotCOR" s.split_ev.curveNotCOR t s.curve_stim_on
  hPS : BucketOK L "PreSwitchCurves" s.split_ev.preSwitchCurves t s.curve_stim_on
  hRC : BucketOK L "ResponseCues" s.split_ev.responseCues t s.response_cues_on
  hHL : BucketOK L "HandLeft" s.split_ev.handLeft t none
  hHR : BucketOK L "HandRight" s.split_ev.handRight t none
  hRW : BucketOK L "Reward" s.split_ev.reward t none
  hFT : BucketOK L "FixationTask" s.split_ev.fixationTask t s.fixation_stim_on
  hFX : BucketOK L "Fixating" s.split_ev.fixating t s.began_fixation
  bFX : OptLe s.began_fixation t
  bST : OptLe s.curve_stim_on t
  bFS : OptLe s.fixation_stim_on t
  bRC : OptLe s.response_cues_on t

end CurveTracing

namespace CurveTracing

/-- Batteries floor of a rational coincides with the floor of the
floor-ring structure. -/
theorem rat_floor_eq (q : Rat) : Rat.floor q = ⌊q⌋ := rfl

/-- The keys of the output view are the fixed vocabulary, for any
bucket contents. -/
theorem toList_keys (sp : SplitEv) : (SplitEv.toList sp).map Prod.fst = condKeys := rfl

/-- Inversion of a successful run: there are normalized rows and a
final scan state, and the three outputs are the ones computed from
them. -/
theorem process_ok_inv (log : List Row) (TR : Rat) (n : Int) (out : Output)
    (h : process_events log TR n = .ok out) :
    ∃ events st, normalizeRows log = .ok events ∧
      scanFrom initState events = .ok st ∧
      out.1 = st.split_ev.toList ∧
      out.2.1 = min (st.last_correct_s + 15) ((events.getLastD default).time_s) ∧
      out.2.2 = min (pyInt (out.2.1 / TR)) n := by
  unfold process_events at h
  split at h
  next => exact absurd h (by simp)
  next events hn =>
    split at h
    next => exact absurd h (by simp)
    next st hs =>
      simp only [Except.ok.injEq] at h
      exact ⟨events, st, hn, hs, by rw [← h], by rw [← h], by rw [← h]⟩

/-- Chain behavior on a TargetLoc row. -/
theorem chainPass_targetLoc (s : ScanState) (r : Row)
    (hev : r.event = "TargetLoc") :
    chainPass s r = .ok { s with curve_target := some r.info } := by
  unfold chainPass
  simp [hev]

/-- Chain behavior on a TRIAL_END transition: all per-trial state is
cleared. -/
theorem chainPass_trialEnd (s : ScanState) (r : Row)
    (hev : r.event = "NewState") (hinfo : r.info = "TRIAL_END") :
    chainPass s r = .ok { s with curve_target := none, curve_stim_on := none,
                                 curve_response := none, curve_switched := false,
                                 fixation_stim_on := none, response_cues_on := none } := by
  unfold chainPass
  simp [hev, hinfo]

/-- Chain behavior on a PRESWITCH transition with no active target:
the assert fires. -/
theorem chainPass_preswitch_none (s : ScanState) (r : Row)
    (hev : r.event = "NewState") (hinfo : r.info = "PRESWITCH")
    (ht : s.curve_target = none) :
    chainPass s r = .error .missingTarget := by
  unfold chainPass
  simp [hev, hinfo, ht]

/-- Chain behavior on a PRESWITCH transition with an active target:
the stimulus onset is recorded. -/
theorem chainPass_preswitch (s : ScanState) (r : Row)
    (hev : r.event = "NewState") (hinfo : r.info = "PRESWITCH")
    (ht : ¬ s.curve_target = none) :
    chainPass s r = .ok { s with curve_stim_on := some r.time_s } := by
  unfold chainPass
  simp [hev, hinfo, ht]

/-- Chain behavior on a Fixation-task FIXATION_PERIOD transition. -/
theorem chainPass_fixPeriod (s : ScanState) (r : Row)
    (htask : r.task = "Fixation") (hev : r.event = "NewState")
    (hinfo : r.info = "FIXATION_PERIOD") :
    chainPass s r = .ok { s with fixation_stim_on := some r.time_s } := by
  unfold chainPass
  simp [htask, hev, hinfo]

/-- Chain behavior on a Fixation-task POSTFIXATION transition with no
recorded onset: the None subtraction raises the type error. -/
theorem chainPass_postfix_none (s : ScanState) (r : Row)
    (htask : r.task = "Fixation") (hev : r.event = "NewState")
    (hinfo : r.info = "POSTFIXATION") (hfs : s.fixation_stim_on = none) :
    chainPass s r = .error .typeError := by
  unfold chainPass
  simp [htask, hev, hinfo, hfs]

/-- Chain behavior on a Fixation-task POSTFIXATION transition with a
recorded onset: one FixationTask event is emitted. -/
theorem chainPass_postfix_some (s : ScanState) (r : Row) (b : Rat)
    (htask : r.task = "Fixation") (hev : r.event = "NewState")
    (hinfo : r.info = "POSTFIXATION") (hfs : s.fixation_stim_on = some b) :
    chainPass s r = .ok { s with split_ev := { s.split_ev with
      fixationTask := s.split_ev.fixationTask ++ [mkEvent b (some r.time_s) 1] } } := by
  unfold chainPass
  simp [htask, hev, hinfo, hfs, SplitEv.append1]

/-- Chain behavior on a SWITCHED transition: the response-window onset
is recorded. -/
theorem chainPass_switched (s : ScanState) (r : Row)
    (hev : r.event = "NewState") (hinfo : r.info = "SWITCHED") :
    chainPass s r = .ok { s with response_cues_on := some r.time_s } := by
  unfold chainPass
  simp [hev, hinfo]

/-- Chain behavior on a non-fixation POSTSWITCH transition: the
trial-resolution branch runs. -/
theorem chainPass_postswitch (s : ScanState) (r : Row)
    (hev : r.event = "NewState") (hinfo : r.info = "POSTSWITCH")
    (htask : ¬ r.task = "Fixation") :
    chainPass s r = postswitchPass s r := by
  unfold chainPass
  simp [hev, hinfo, htask]

/-- Chain behavior on the first response marker of a trial: the
outcome is latched. -/
theorem chainPass_respGiven (s : ScanState) (r : Row)
    (hev : r.event = "ResponseGiven") (hresp : s.curve_response = none) :
    chainPass s r = .ok { s with curve_response := some r.info } := by
  unfold chainPass
  simp [hev, hresp]

/-- Chain behavior on a later response marker of a trial: ignored. -/
theorem chainPass_respGiven_latched (s : ScanState) (r : Row)
    (hev : r.event = "ResponseGiven") (hresp : ¬ s.curve_response = none) :
    chainPass s r = .ok s := by
  unfold chainPass
  simp [hev, hresp]

/-- Chain behavior on a response-initiation marker: the hand bucket
keyed by the payload receives an instantaneous event. -/
theorem chainPass_respInit (s : ScanState) (r : Row)
    (hev : r.event = "Response_Initiate") :
    chainPass s r =
      match s.split_ev.append1 ("Hand" ++ r.info) (mkEvent r.time_s none 1) with
      | .error e => .error e
      | .ok sp => .ok { s with split_ev := sp } := by
  unfold chainPass
  simp [hev]

/-- Chain behavior on the two automatic reward markers. -/
theorem chainPass_autoReward (s : ScanState) (r : Row)
    (hev : r.event = "ResponseReward" ∨ r.event = "TaskReward") :
    chainPass s r = .ok { s with split_ev := { s.split_ev with
      reward := s.split_ev.reward ++ [mkEvent r.time_s none r.infoVal] } } := by
  unfold chainPass
  rcases hev with hev | hev <;> simp [hev, SplitEv.append1]

/-- Chain behavior on the current manual reward encoding. -/
theorem chainPass_manualReward (s : ScanState) (r : Row)
    (hev : r.event = "ManualReward") :
    chainPass s r = .ok { s with split_ev := { s.split_ev with
                                   reward := s.split_ev.reward ++ [mkEvent r.time_s none r.infoVal] },
                                 has_ManualRewardField := true } := by
  unfold chainPass
  simp [hev, SplitEv.append1]

/-- Chain behavior on the legacy manual reward encoding when the
current encoding was seen earlier: the conflict assert fires. -/
theorem chainPass_rewardManual_conflict (s : ScanState) (r : Row)
    (hev : r.event = "Reward") (hinfo : r.info = "Manual")
    (hflag : s.has_ManualRewardField = true) :
    chainPass s r = .error .conflictingRewardEncodings := by
  unfold chainPass
  simp [hev, hinfo, hflag, SplitEv.append1]

/-- Chain behavior on the legacy manual reward encoding with no
conflict: a 0.04-amplitude reward event. -/
theorem chainPass_rewardManual (s : ScanState) (r : Row)
    (hev : r.event = "Reward") (hinfo : r.info = "Manual")
    (hflag : s.has_ManualRewardField = false) :
    chainPass s r = .ok { s with split_ev := { s.split_ev with
      reward := s.split_ev.reward ++ [mkEvent r.time_s none 0.04] } } := by
  unfold chainPass
  simp [hev, hinfo, hflag, SplitEv.append1]

/-- Rows whose event type matches no chain branch leave the state
unchanged. -/
theorem chainPass_other (s : ScanState) (r : Row)
    (h1 : ¬ r.event = "TargetLoc") (h2 : ¬ r.event = "NewState")
    (h3 : ¬ r.event = "ResponseGiven") (h4 : ¬ r.event = "Response_Initiate")
    (h5 : ¬ r.event = "ResponseReward") (h6 : ¬ r.event = "TaskReward")
    (h7 : ¬ r.event = "ManualReward") (h8 : ¬ r.event = "Reward") :
    chainPass s r = .ok s := by
  unfold chainPass
  simp [h1, h2, h3, h4, h5, h6, h7, h8]

/-- A Reward row with a payload other than Manual matches no branch. -/
theorem chainPass_rewardOther (s : ScanState) (r : Row)
    (hev : r.event = "Reward") (hinfo : ¬ r.info = "Manual") :
    chainPass s r = .ok s := by
  unfold chainPass
  simp [hev, hinfo]

/-- A NewState row whose label matches no chain branch leaves the
state unchanged by the chain. -/
theorem chainPass_newStateOther (s : ScanState) (r : Row)
    (hev : r.event = "NewState")
    (n1 : ¬ r.info = "TRIAL_END") (n2 : ¬ r.info = "PRESWITCH")
    (n3 : ¬ r.info = "FIXATION_PERIOD") (n4 : ¬ r.info = "POSTFIXATION")
    (n5 : ¬ r.info = "SWITCHED") (n6 : ¬ r.info = "POSTSWITCH") :
    chainPass s r = .ok s := by
  unfold chainPass
  simp [hev, n1, n2, n3, n4, n5, n6]

/-- A POSTSWITCH transition of the Fixation task is excluded from the
trial-resolution branch and matches nothing else. -/
theorem chainPass_newStateFixPostswitch (s : ScanState) (r : Row)
    (hev : r.event = "NewState") (hinfo : r.info = "POSTSWITCH")
    (htask : r.task = "Fixation") :
    chainPass s r = .ok s := by
  unfold chainPass
  simp [hev, hinfo, htask]

/-- The two fixation-task-gated labels match nothing when the task is
not Fixation. -/
theorem chainPass_newStateFixOnly (s : ScanState) (r : Row)
    (hev : r.event = "NewState")
    (hinfo : r.info = "FIXATION_PERIOD" ∨ r.info = "POSTFIXATION")
    (htask : ¬ r.task = "Fixation") :
    chainPass s r = .ok s := by
  unfold chainPass
  rcases hinfo with hinfo | hinfo <;> simp [hev, hinfo, htask]

end CurveTracing

namespace CurveTracing

/-- The updated most-recent-correct time returned by the classification
is the row time exactly on a CORRECT latch. -/
theorem classify_snd (resp : Option String) (switched : Bool) (tn : String)
    (lc now : Rat) (et : String × Rat)
    (h : classify resp switched tn lc now = .ok et) :
    et.2 = if resp = some "CORRECT" then now else lc := by
  unfold classify at h
  split_ifs at h with h1 h2 h3 h4 <;>
    simp only [Except.ok.injEq] at h <;> subst h <;> simp_all

/-- The NewState update touches neither the most-recent-correct time
nor the latched response. -/
theorem newStatePass_proj (s : ScanState) (r : Row) :
    (newStatePass s r).last_correct_s = s.last_correct_s ∧
    (newStatePass s r).curve_response = s.curve_response := by
  unfold newStatePass
  split <;> exact ⟨rfl, rfl⟩

/-- The fixation tracking touches neither the most-recent-correct time
nor the latched response. -/
theorem fixationPass_proj (s s2 : ScanState) (r : Row)
    (h : fixationPass s r = .ok s2) :
    s2.last_correct_s = s.last_correct_s ∧
    s2.curve_response = s.curve_response := by
  unfold fixationPass at h
  split at h
  · split at h
    · split at h
      · split at h
        · exact absurd h (by simp)
        · simp only [Except.ok.injEq] at h
          rw [← h]
          exact ⟨rfl, rfl⟩
      · simp only [Except.ok.injEq] at h
        rw [← h]
        exact ⟨rfl, rfl⟩
    · split at h
      · simp only [Except.ok.injEq] at h
        rw [← h]
        exact ⟨rfl, rfl⟩
      · exact absurd h (by simp)
  · simp only [Except.ok.injEq] at h
    rw [← h]
    exact ⟨rfl, rfl⟩

/-- The trial-resolution branch keeps the latched response and moves
the most-recent-correct time to now exactly on a CORRECT latch. -/
theorem postswitchPass_proj (s s2 : ScanState) (r : Row)
    (h : postswitchPass s r = .ok s2) :
    s2.curve_response = s.curve_response ∧
    s2.last_correct_s =
      (if s.curve_response = some "CORRECT" then r.time_s else s.last_correct_s) := by
  unfold postswitchPass at h
  split at h
  · exact absurd h (by simp)
  · split at h
    · exact absurd h (by simp)
    · split at h
      · exact absurd h (by simp)
      · split at h
        · exact absurd h (by simp)
        · rename_i et hcls
          split at h
          · exact absurd h (by simp)
          · split at h
            · exact absurd h (by simp)
            · split at h
              · exact absurd h (by simp)
              · simp only [Except.ok.injEq] at h
                subst h
                exact ⟨rfl, classify_snd _ _ _ _ _ _ hcls⟩

/-- One chain iteration refines the spec-side projection of the pair
(most-recent-correct time, latched response). -/
theorem chainPass_proj (s s2 : ScanState) (r : Row)
    (h : chainPass s r = .ok s2) :
    (s2.last_correct_s, s2.curve_response) =
      projStep (s.last_correct_s, s.curve_response) r := by
  by_cases h1 : r.event = "TargetLoc"
  · rw [chainPass_targetLoc s r h1] at h
    simp only [Except.ok.injEq] at h
    subst h
    simp [projStep, h1]
  · by_cases h2 : r.event = "NewState"
    · by_cases i1 : r.info = "TRIAL_END"
      · rw [chainPass_trialEnd s r h2 i1] at h
        simp only [Except.ok.injEq] at h
        subst h
        simp [projStep, h2, i1]
      · by_cases i2 : r.info = "PRESWITCH"
        · by_cases ht : s.curve_target = none
          · rw [chainPass_preswitch_none s r h2 i2 ht] at h
            exact absurd h (by simp)
          · rw [chainPass_preswitch s r h2 i2 ht] at h
            simp only [Except.ok.injEq] at h
            subst h
            simp [projStep, h2, i2]
        · by_cases htf : r.task = "Fixation"
          · by_cases i3 : r.info = "FIXATION_PERIOD"
            · rw [chainPass_fixPeriod s r htf h2 i3] at h
              simp only [Except.ok.injEq] at h
              subst h
              simp [projStep, h2, i3, htf]
            · by_cases i4 : r.info = "POSTFIXATION"
              · cases hfs : s.fixation_stim_on with
                | none =>
                  rw [chainPass_postfix_none s r htf h2 i4 hfs] at h
                  exact absurd h (by simp)
                | some b =>
                  rw [chainPass_postfix_some s r b htf h2 i4 hfs] at h
                  simp only [Except.ok.injEq] at h
                  subst h
                  simp [projStep, h2, i4, htf]
              · by_cases i5 : r.info = "SWITCHED"
                · rw [chainPass_switched s r h2 i5] at h
                  simp only [Except.ok.injEq] at h
                  subst h
                  simp [projStep, h2, i5]
                · by_cases i6 : r.info = "POSTSWITCH"
                  · rw [chainPass_newStateFixPostswitch s r h2 i6 htf] at h
                    simp only [Except.ok.injEq] at h
                    subst h
                    simp [projStep, h2, i6, htf]
                  · rw [chainPass_newStateOther s r h2 i1 i2 i3 i4 i5 i6] at h
                    simp only [Except.ok.injEq] at h
                    subst h
                    simp [projStep, h2, i1, i2, i6]
          · by_cases i34 : r.info = "FIXATION_PERIOD" ∨ r.info = "POSTFIXATION"
            · rw [chainPass_newStateFixOnly s r h2 i34 htf] at h
              simp only [Except.ok.injEq] at h
              subst h
              rcases i34 with i3 | i4
              · simp [projStep, h2, i3]
              · simp [projStep, h2, i4]
            · push_neg at i34
              by_cases i5 : r.info = "SWITCHED"
              · rw [chainPass_switched s r h2 i5] at h
                simp only [Except.ok.injEq] at h
                subst h
                simp [projStep, h2, i5]
              · by_cases i6 : r.info = "POSTSWITCH"
                · rw [chainPass_postswitch s r h2 i6 htf] at h
                  have hps := postswitchPass_proj s s2 r h
                  simp [projStep, h2, i6, htf, hps.1, hps.2, Prod.ext_iff]
                · rw [chainPass_newStateOther s r h2 i1 i2 i34.1 i34.2 i5 i6] at h
                  simp only [Except.ok.injEq] at h
                  subst h
                  simp [projStep, h2, i1, i2, i6]
    · by_cases h3 : r.event = "ResponseGiven"
      · by_cases hrn : s.curve_response = none
        · rw [chainPass_respGiven s r h3 hrn] at h
          simp only [Except.ok.injEq] at h
          subst h
          simp [projStep, h3, hrn]
        · rw [chainPass_respGiven_latched s r h3 hrn] at h
          simp only [Except.ok.injEq] at h
          subst h
          simp [projStep, h3, hrn]
      · by_cases h4 : r.event = "Response_Initiate"
        · rw [chainPass_respInit s r h4] at h
          cases happ : s.split_ev.append1 ("Hand" ++ r.info) (mkEvent r.time_s none 1) with
          | error e =>
            rw [happ] at h
            exact absurd h (by simp)
          | ok sp =>
            rw [happ] at h
            simp only [Except.ok.injEq] at h
            subst h
            simp [projStep, h4]
        · by_cases h5 : r.event = "ResponseReward" ∨ r.event = "TaskReward"
          · rw [chainPass_autoReward s r h5] at h
            simp only [Except.ok.injEq] at h
            subst h
            rcases h5 with h5 | h5 <;> simp [projStep, h5]
          · by_cases h6 : r.event = "ManualReward"
            · rw [chainPass_manualReward s r h6] at h
              simp only [Except.ok.injEq] at h
              subst h
              simp [projStep, h6]
            · by_cases h7 : r.event = "Reward"
              · by_cases h8 : r.info = "Manual"
                · cases hfl : s.has_ManualRewardField with
                  | true =>
                    rw [chainPass_rewardManual_conflict s r h7 h8 hfl] at h
                    exact absurd h (by simp)
                  | false =>
                    rw [chainPass_rewardManual s r h7 h8 hfl] at h
                    simp only [Except.ok.injEq] at h
                    subst h
                    simp [projStep, h7]
                · rw [chainPass_rewardOther s r h7 h8] at h
                  simp only [Except.ok.injEq] at h
                  subst h
                  simp [projStep, h7]
              · push_neg at h5
                rw [chainPass_other s r h1 h2 h3 h4 h5.1 h5.2 h6 h7] at h
                simp only [Except.ok.injEq] at h
                subst h
                simp [projStep, h2, h3]

/-- One full scan iteration refines the spec-side projection. -/
theorem step_proj (s s2 : ScanState) (r : Row) (h : step s r = .ok s2) :
    (s2.last_correct_s, s2.curve_response) =
      projStep (s.last_correct_s, s.curve_response) r := by
  unfold step at h
  cases hfp : fixationPass (newStatePass s r) r with
  | error e => rw [hfp] at h; exact absurd h (by simp)
  | ok s1 =>
    rw [hfp] at h
    have h1 := fixationPass_proj _ _ _ hfp
    have h2 := newStatePass_proj s r
    have h3 := chainPass_proj s1 s2 r h
    rw [h3, h1.1, h1.2, h2.1, h2.2]

/-- The whole scan refines the fold of the spec-side projection. -/
theorem scan_proj (rows : List Row) : ∀ (s s' : ScanState),
    scanFrom s rows = .ok s' →
    (s'.last_correct_s, s'.curve_response) =
      rows.foldl projStep (s.last_correct_s, s.curve_response) := by
  induction rows with
  | nil =>
    intro s s' h
    simp only [scanFrom, Except.ok.injEq] at h
    subst h
    rfl
  | cons r rs ih =>
    intro s s' h
    unfold scanFrom at h
    cases hst : step s r with
    | error e => rw [hst] at h; exact absurd h (by simp)
    | ok s1 =>
      rw [hst] at h
      have h1 := ih s1 s' h
      have h2 := step_proj s s1 r hst
      rw [List.foldl_cons, ← h2, h1]

end CurveTracing

namespace CurveTracing

/-- C9: a log with no trigger-received row makes the whole computation
fail with the index error of the empty iloc selection, producing no
output. -/
theorem c9_missing_trigger (log : List Row) (TR : Rat) (n : Int)
    (h : ∀ r ∈ log, ¬ (r.event = "MRI_Trigger" ∧ r.info = "Received")) :
    process_events log TR n = .error .indexError := by
  have hf : findTrigger log = none := by
    apply List.find?_eq_none.mpr
    intro x hx
    simp only [Bool.and_eq_true, beq_iff_eq, not_and]
    intro h1 h2
    exact h x hx ⟨h1, h2⟩
  simp [process_events, normalizeRows, hf]

/-- Witness for C9 at a concrete one-row log with no trigger. -/
theorem c9_missing_trigger_witness :
    process_events c9log 1 10 = .error .indexError :=
  c9_missing_trigger c9log 1 10 (by decide)

/-- C6: whenever the segmenter returns, the output mapping carries
exactly the sixteen fixed condition keys, in order. -/
theorem c6_bucket_keys (log : List Row) (TR : Rat) (n : Int)
    (h : isOkB (process_events log TR n) = true) :
    getKeys (process_events log TR n) = some condKeys := by
  cases hp : process_events log TR n with
  | error e => rw [hp] at h; simp [isOkB] at h
  | ok out =>
    obtain ⟨events, st, hn, hs, h1, _, _⟩ := process_ok_inv log TR n out hp
    simp [getKeys, h1, toList_keys]

/-- Witness for C6 at the minimal successful log. -/
theorem c6_bucket_keys_witness :
    getKeys (process_events demoLog 1 10) = some condKeys :=
  c6_bucket_keys demoLog 1 10 (by decide)

/-- C5 amended: the usable-volume count never exceeds the supplied
total volume count. -/
theorem c5_nvols_le (log : List Row) (TR : Rat) (n : Int) (nv : Int)
    (h : getNvols (process_events log TR n) = some nv) : nv ≤ n := by
  cases hp : process_events log TR n with
  | error e => rw [hp] at h; simp [getNvols] at h
  | ok out =>
    rw [hp] at h
    simp only [getNvols, Option.some.injEq] at h
    obtain ⟨events, st, hn, hs, _, _, h3⟩ := process_ok_inv log TR n out hp
    rw [← h, h3]
    exact min_le_right _ _

/-- Witness for the amended C5 at the minimal successful log. -/
theorem c5_nvols_le_witness : (0 : Int) ≤ 200 :=
  c5_nvols_le demoLog (5/2) 200 0 (by
    simp [process_events, normalizeRows, findTrigger, demoLog, trigRow, mkRow,
      scanFrom, step, newStatePass, fixationPass, chainPass, getNvols, List.find?]
    norm_num [pyInt, initState, rat_floor_eq])

/-- C5 counterexample: the run of spec scenario E (zero correct trials)
returns the usable-volume count 0, violating the claimed lower bound
of 1. -/
theorem c5_counterexample :
    getNvols (process_events demoLog (5/2) 200) = some 0 ∧ ¬ (1 ≤ (0 : Int)) := by
  constructor
  · simp [process_events, normalizeRows, findTrigger, demoLog, trigRow, mkRow,
      scanFrom, step, newStatePass, fixationPass, chainPass, getNvols, List.find?]
    norm_num [pyInt, initState, rat_floor_eq]
  · decide

/-- C4 amended: the usable-volume count is min(int(end/TR), total)
where int() truncates toward zero, and this coincides with the
floor-based formula whenever the end time is nonnegative. -/
theorem c4_nvols_trunc (log : List Row) (TR : Rat) (n : Int) (endt : Rat) (nv : Int)
    (hTR : 0 < TR)
    (he : getEnd (process_events log TR n) = some endt)
    (hv : getNvols (process_events log TR n) = some nv) :
    nv = min (pyInt (endt / TR)) n ∧
    (0 ≤ endt → nv = min (Rat.floor (endt / TR)) n) := by
  cases hp : process_events log TR n with
  | error e => rw [hp] at he; simp [getEnd] at he
  | ok out =>
    rw [hp] at he hv
    simp only [getEnd, Option.some.injEq] at he
    simp only [getNvols, Option.some.injEq] at hv
    obtain ⟨events, st, hn, hs, _, _, h3⟩ := process_ok_inv log TR n out hp
    have h1 : nv = min (pyInt (endt / TR)) n := by rw [← hv, h3, he]
    refine ⟨h1, fun hend => ?_⟩
    have hq : ¬ (endt / TR < 0) := by
      push_neg
      exact div_nonneg hend (le_of_lt hTR)
    rw [h1, pyInt, if_neg hq]

/-- Witness for the amended C4 at the minimal successful log. -/
theorem c4_nvols_trunc_witness :
    (0 : Int) = min (pyInt ((0 : Rat) / 2)) 100 ∧
    (0 ≤ (0 : Rat) → (0 : Int) = min (Rat.floor ((0 : Rat) / 2)) 100) :=
  c4_nvols_trunc demoLog 2 100 0 0 (by norm_num)
    (by
      simp [process_events, normalizeRows, findTrigger, demoLog, trigRow, mkRow,
        scanFrom, step, newStatePass, fixationPass, chainPass, getEnd, List.find?]
      norm_num [initState])
    (by
      simp [process_events, normalizeRows, findTrigger, demoLog, trigRow, mkRow,
        scanFrom, step, newStatePass, fixationPass, chainPass, getNvols, List.find?]
      norm_num [pyInt, initState, rat_floor_eq])

/-- C4 counterexample: on a time-sorted log whose single correct trial
precedes the trigger, the end time is -5 and the returned count is
min(-2, 100) = -2, while the claimed floor formula gives -3. -/
theorem c4_counterexample :
    getEnd (process_events c4log 2 100) = some (-5) ∧
    getNvols (process_events c4log 2 100) = some (-2) ∧
    ¬ ((-2 : Int) = min (Rat.floor ((-5) / 2)) 100) := by
  refine ⟨?_, ?_, ?_⟩
  · simp [process_events, normalizeRows, findTrigger, c4log, mkRow,
      scanFrom, step, newStatePass, fixationPass, chainPass, postswitchPass,
      classify, targetNameOf, SplitEv.append1, mkEvent, getEnd, List.find?, initState]
    norm_num
  · simp [process_events, normalizeRows, findTrigger, c4log, mkRow,
      scanFrom, step, newStatePass, fixationPass, chainPass, postswitchPass,
      classify, targetNameOf, SplitEv.append1, mkEvent, getNvols, List.find?, initState]
    norm_num [pyInt, rat_floor_eq]
  · norm_num [rat_floor_eq]

/-- C2: on the log holding the legacy (Reward, Manual) row before the
ManualReward row, the segmenter returns normally although the claim
(and the assert message of the source) requires the conflicting
encodings to be fatal in either order. -/
theorem c2_both_encodings_accepted : isOkB (process_events c2log 1 10) = true := by
  rfl

/-- C3: the returned end time is min(spec-side most recent correct
trial time + 15, last normalized row time), and with no correct trial
the sentinel makes the first argument 0. -/
theorem c3_end_time (log : List Row) (TR : Rat) (n : Int) (endt : Rat)
    (nrows : List Row)
    (he : getEnd (process_events log TR n) = some endt)
    (hn : normalizeRows log = .ok nrows) :
    endt = min (specLastCorrect nrows + 15) ((nrows.getLastD default).time_s) ∧
    (specLastCorrect nrows = -15 →
      endt = min 0 ((nrows.getLastD default).time_s)) := by
  cases hp : process_events log TR n with
  | error e => rw [hp] at he; simp [getEnd] at he
  | ok out =>
    rw [hp] at he
    simp only [getEnd, Option.some.injEq] at he
    obtain ⟨events, st, hn2, hs, _, h2, _⟩ := process_ok_inv log TR n out hp
    rw [hn] at hn2
    simp only [Except.ok.injEq] at hn2
    subst hn2
    have hproj := scan_proj nrows initState st hs
    have hlc : st.last_correct_s = specLastCorrect nrows := by
      have h15 : initState.last_correct_s = -15 := rfl
      have h0 : initState.curve_response = none := rfl
      unfold specLastCorrect
      rw [← h15, ← h0, ← hproj]
    constructor
    · rw [← he, h2, hlc]
    · intro hz
      rw [← he, h2, hlc, hz]
      norm_num

end CurveTracing

namespace CurveTracing

/-- Witness for C3 at the scenario-A log: end time 11 = min(10+15, 11). -/
theorem c3_end_time_witness :
    ((11 : Rat) = min (specLastCorrect scenALog + 15) ((scenALog.getLastD default).time_s) ∧
     (specLastCorrect scenALog = -15 →
       (11 : Rat) = min 0 ((scenALog.getLastD default).time_s))) :=
  c3_end_time scenALog 1 100 11 scenALog
    (by
      simp [process_events, normalizeRows, findTrigger, scenALog, trigRow, mkRow,
        scanFrom, step, newStatePass, fixationPass, chainPass, postswitchPass,
        classify, targetNameOf, SplitEv.append1, mkEvent, getEnd, List.find?, initState]
      norm_num)
    (by
      simp [normalizeRows, findTrigger, scenALog, trigRow, mkRow, List.find?])

end CurveTracing

namespace CurveTracing

/-- The scan over a concatenation runs the first part and, when it
succeeds, continues with the second. -/
theorem scanFrom_append (l1 l2 : List Row) (s : ScanState) :
    scanFrom s (l1 ++ l2) =
      match scanFrom s l1 with
      | .error e => .error e
      | .ok s1 => scanFrom s1 l2 := by
  induction l1 generalizing s with
  | nil => simp [scanFrom]
  | cons r rs ih =>
    simp only [List.cons_append, scanFrom]
    cases step s r with
    | error e => rfl
    | ok s1 => exact ih s1

/-- A Fixation-task POSTFIXATION row reached with no recorded fixation
onset makes the step raise the type error of the None subtraction. -/
theorem step_postfix_none (s : ScanState) (r : Row)
    (htask : r.task = "Fixation") (hev : r.event = "NewState")
    (hinfo : r.info = "POSTFIXATION") (hfs : s.fixation_stim_on = none) :
    step s r = .error .typeError := by
  unfold step
  have hfx : fixationPass (newStatePass s r) r = .ok (newStatePass s r) := by
    unfold fixationPass
    simp [hev]
  rw [hfx]
  have hfs2 : (newStatePass s r).fixation_stim_on = none := by
    unfold newStatePass
    split <;> simp [hfs]
  exact chainPass_postfix_none _ r htask hev hinfo hfs2

/-- C10: when the normalized log reaches a Fixation-task POSTFIXATION
row with no fixation-period onset recorded in the scan state, the whole
computation fails with the uncaught type error (not a FixationTask
event, not a descriptive assert). -/
theorem c10_postfixation_type_error (log : List Row) (TR : Rat) (n : Int)
    (nrows pre post : List Row) (r : Row) (s1 : ScanState)
    (hn : normalizeRows log = .ok nrows)
    (hsplit : nrows = pre ++ r :: post)
    (hpre : scanFrom initState pre = .ok s1)
    (hfix : s1.fixation_stim_on = none)
    (htask : r.task = "Fixation") (hev : r.event = "NewState")
    (hinfo : r.info = "POSTFIXATION") :
    process_events log TR n = .error .typeError := by
  have hscan : scanFrom initState nrows = .error .typeError := by
    rw [hsplit, scanFrom_append, hpre]
    show scanFrom s1 (r :: post) = .error .typeError
    unfold scanFrom
    rw [step_postfix_none s1 r htask hev hinfo hfix]
  simp [process_events, hn, hscan]

/-- Witness for C10 at the concrete two-row log. -/
theorem c10_postfixation_type_error_witness :
    process_events c10log 1 10 = .error .typeError :=
  c10_postfixation_type_error c10log 1 10 c10log [trigRow]
    [] (mkRow "Fixation" "NewState" "POSTFIXATION" 0 5) initState
    (by simp [normalizeRows, findTrigger, c10log, trigRow, mkRow, List.find?])
    rfl rfl rfl rfl rfl rfl

end CurveTracing

namespace CurveTracing

set_option maxHeartbeats 1600000 in
/-- C1: the required classification behavior of one POSTSWITCH trial
resolution, as stated by PostswitchSpec: the latched outcome CORRECT,
INCORRECT, missing (with the switched flag set or unset) or
FixationBreak selects exactly one classification bucket receiving
exactly one event spanning stimulus onset to now, CurveNotCOR is
duplicated exactly for the three non-correct outcomes, and any other
latched outcome is fatal. -/
theorem c1_postswitch_classification (s : ScanState) (r : Row) (t0 : Rat) (tg : String)
    (hev : r.event = "NewState") (hinfo : r.info = "POSTSWITCH")
    (htaskne : ¬ r.task = "Fixation")
    (htask : r.task = "Curve tracing" ∨ r.task = "Control CT" ∨
             r.task = "Catch CT" ∨ r.task.toLower = "keep busy")
    (hstim : s.curve_stim_on = some t0)
    (htg : s.curve_target = some tg)
    (htg5 : tg = "UL" ∨ tg = "DL" ∨ tg = "UR" ∨ tg = "DR" ∨ tg = "Center") :
    PostswitchSpec s r t0 tg := by
  have hns : newStatePass s r = { s with curr_state := some r.info } := by
    unfold newStatePass
    simp [hev, hinfo]
  have hstep : step s r = postswitchPass (newStatePass s r) r := by
    unfold step
    have hfx : fixationPass (newStatePass s r) r = .ok (newStatePass s r) := by
      unfold fixationPass
      simp [hev]
    rw [hfx]
    exact chainPass_postswitch _ r hev hinfo htaskne
  have htask2 : ¬ ¬ (r.task = "Curve tracing" ∨ r.task = "Control CT" ∨
      r.task = "Catch CT" ∨ r.task.toLower = "keep busy") := not_not_intro htask
  refine ⟨?_, ?_, ?_, ?_, ?_, ?_⟩
  · -- CORRECT
    intro hresp
    rcases htg5 with rfl | rfl | rfl | rfl | rfl <;>
    rcases hrc : s.response_cues_on with _ | rc <;>
    · cases hres : step s r with
      | error e =>
        rw [hstep, hns] at hres
        unfold postswitchPass at hres
        simp [htask2, hstim, hresp, htg, hrc, classify, targetNameOf,
          SplitEv.append1] at hres
      | ok s2 =>
        rw [hstep, hns] at hres
        unfold postswitchPass at hres
        simp [htask2, hstim, hresp, htg, hrc, classify, targetNameOf,
          SplitEv.append1] at hres
        subst hres
        refine ⟨_, rfl, rfl, rfl, rfl, ?_⟩
        intro k hk hkne
        fin_cases hk <;> simp_all [SplitEv.get, SplitEv.toList, List.lookup]
  · -- INCORRECT
    intro hresp
    rcases hrc : s.response_cues_on with _ | rc <;>
    · cases hres : step s r with
      | error e =>
        rw [hstep, hns] at hres
        unfold postswitchPass at hres
        simp [htask2, hstim, hresp, htg, hrc, classify, targetNameOf,
          SplitEv.append1] at hres
      | ok s2 =>
        rw [hstep, hns] at hres
        unfold postswitchPass at hres
        simp [htask2, hstim, hresp, htg, hrc, classify, targetNameOf,
          SplitEv.append1] at hres
        subst hres
        refine ⟨_, rfl, rfl, rfl, ?_⟩
        intro k hk hkne
        fin_cases hk <;> simp_all [SplitEv.get, SplitEv.toList, List.lookup]
  · -- none, switched
    intro hresp hsw
    rcases hrc : s.response_cues_on with _ | rc <;>
    · cases hres : step s r with
      | error e =>
        rw [hstep, hns] at hres
        unfold postswitchPass at hres
        simp [htask2, hstim, hresp, hsw, htg, hrc, classify, targetNameOf,
          SplitEv.append1] at hres
      | ok s2 =>
        rw [hstep, hns] at hres
        unfold postswitchPass at hres
        simp [htask2, hstim, hresp, hsw, htg, hrc, classify, targetNameOf,
          SplitEv.append1] at hres
        subst hres
        refine ⟨_, rfl, rfl, rfl, ?_⟩
        intro k hk hkne
        fin_cases hk <;> simp_all [SplitEv.get, SplitEv.toList, List.lookup]
  · -- none, not switched
    intro hresp hsw
    rcases hrc : s.response_cues_on with _ | rc <;>
    · cases hres : step s r with
      | error e =>
        rw [hstep, hns] at hres
        unfold postswitchPass at hres
        simp [htask2, hstim, hresp, hsw, htg, hrc, classify, targetNameOf,
          SplitEv.append1] at hres
      | ok s2 =>
        rw [hstep, hns] at hres
        unfold postswitchPass at hres
        simp [htask2, hstim, hresp, hsw, htg, hrc, classify, targetNameOf,
          SplitEv.append1] at hres
        subst hres
        refine ⟨_, rfl, rfl, rfl, ?_⟩
        intro k hk hkne
        fin_cases hk <;> simp_all [SplitEv.get, SplitEv.toList, List.lookup]
  · -- FixationBreak
    intro hresp
    rcases hrc : s.response_cues_on with _ | rc <;>
    · cases hres : step s r with
      | error e =>
        rw [hstep, hns] at hres
        unfold postswitchPass at hres
        simp [htask2, hstim, hresp, htg, hrc, classify, targetNameOf,
          SplitEv.append1] at hres
      | ok s2 =>
        rw [hstep, hns] at hres
        unfold postswitchPass at hres
        simp [htask2, hstim, hresp, htg, hrc, classify, targetNameOf,
          SplitEv.append1] at hres
        subst hres
        refine ⟨_, rfl, rfl, rfl, ?_⟩
        intro k hk hkne
        fin_cases hk <;> simp_all [SplitEv.get, SplitEv.toList, List.lookup]
  · -- any other latched value is fatal
    intro v hv h1 h2 h3
    rw [hstep, hns]
    unfold postswitchPass
    simp [htask2, hstim, hv, h1, h2, h3, classify, targetNameOf, SplitEv.append1]

/-- Witness for C1: a correct UL trial at a concrete state and row. -/
theorem c1_postswitch_classification_witness : PostswitchSpec c1state c1row 5 "UL" :=
  c1_postswitch_classification c1state c1row 5 "UL" rfl rfl (by decide)
    (Or.inl rfl) rfl rfl (Or.inl rfl)

end CurveTracing

namespace CurveTracing

/-- An empty bucket is well-formed. -/
theorem bucketOK_nil (L : List Row) (k : String) (t : Rat) (src : Option Rat) :
    BucketOK L k [] t src :=
  ⟨List.Pairwise.nil, by simp, fun v _ e he => by simp at he⟩

/-- An unset source is bounded by anything. -/
theorem optLe_none (t : Rat) : OptLe none t := fun v hv => by cases hv

/-- A source just set to the bound is bounded by it. -/
theorem optLe_self (τ : Rat) : OptLe (some τ) τ := fun v hv => by
  injection hv with h
  rw [← h]

/-- Source bounds are monotone. -/
theorem optLe_mono (o : Option Rat) (t t' : Rat) (h : OptLe o t) (ht : t ≤ t') :
    OptLe o t' := fun v hv => le_trans (h v hv) ht

/-- Bucket well-formedness is monotone in the time bound. -/
theorem bucketOK_mono (L : List Row) (k : String) (l : List Event) (t t' : Rat)
    (src : Option Rat) (h : BucketOK L k l t src) (ht : t ≤ t') :
    BucketOK L k l t' src :=
  ⟨h.1, fun e he => ⟨le_trans (h.2.1 e he).1 ht, (h.2.1 e he).2⟩, h.2.2⟩

/-- The bucket source can be replaced when the new source bounds all
onsets. -/
theorem bucketOK_src (L : List Row) (k : String) (l : List Event) (t : Rat)
    (src src' : Option Rat) (h : BucketOK L k l t src)
    (h2 : ∀ v, src' = some v → ∀ e ∈ l, e.time_s ≤ v) :
    BucketOK L k l t src' :=
  ⟨h.1, h.2.1, h2⟩

/-- Clearing the source keeps a bucket well-formed. -/
theorem bucketOK_src_none (L : List Row) (k : String) (l : List Event) (t : Rat)
    (src : Option Rat) (h : BucketOK L k l t src) :
    BucketOK L k l t none :=
  bucketOK_src L k l t src none h (fun v hv => by cases hv)

/-- Setting the source to the current time bound keeps a bucket
well-formed. -/
theorem bucketOK_src_set (L : List Row) (k : String) (l : List Event) (t τ : Rat)
    (src : Option Rat) (h : BucketOK L k l t src) (ht : t ≤ τ) :
    BucketOK L k l τ (some τ) :=
  ⟨h.1, fun e he => ⟨le_trans (h.2.1 e he).1 ht, (h.2.1 e he).2⟩,
   fun v hv e he => by
     injection hv with hv
     rw [← hv]
     exact le_trans (h.2.1 e he).1 ht⟩

/-- Appending a span event from the recorded source to the current
time preserves bucket well-formedness outside the Reward bucket. -/
theorem bucketOK_append_span (L : List Row) (k : String) (l : List Event)
    (t a τ : Rat) (h : BucketOK L k l t (some a)) (ha : a ≤ τ) (ht : t ≤ τ)
    (hk : ¬ k = "Reward") :
    BucketOK L k (l ++ [mkEvent a (some τ) 1]) τ (some a) := by
  refine ⟨?_, ?_, ?_⟩
  · refine List.pairwise_append.mpr ⟨h.1, List.pairwise_singleton _ _, ?_⟩
    intro x hx y hy
    simp only [List.mem_singleton] at hy
    subst hy
    exact h.2.2 a rfl x hx
  · intro e he
    rcases List.mem_append.mp he with he | he
    · exact ⟨le_trans (h.2.1 e he).1 ht, (h.2.1 e he).2⟩
    · simp only [List.mem_singleton] at he
      subst he
      refine ⟨ha, sub_nonneg.mpr ha, fun _ => rfl, fun hkk => absurd hkk hk⟩
  · intro v hv e he
    rcases List.mem_append.mp he with he | he
    · exact h.2.2 v hv e he
    · simp only [List.mem_singleton] at he
      subst he
      injection hv with hv
      rw [← hv]
      exact le_refl a

/-- Appending an instantaneous amplitude-1 event at the current time
preserves well-formedness of an unsourced non-Reward bucket. -/
theorem bucketOK_append_inst (L : List Row) (k : String) (l : List Event)
    (t τ : Rat) (h : BucketOK L k l t none) (ht : t ≤ τ) (hk : ¬ k = "Reward") :
    BucketOK L k (l ++ [mkEvent τ none 1]) τ none := by
  refine ⟨?_, ?_, fun v hv => by cases hv⟩
  · refine List.pairwise_append.mpr ⟨h.1, List.pairwise_singleton _ _, ?_⟩
    intro x hx y hy
    simp only [List.mem_singleton] at hy
    subst hy
    exact le_trans (h.2.1 x hx).1 ht
  · intro e he
    rcases List.mem_append.mp he with he | he
    · exact ⟨le_trans (h.2.1 e he).1 ht, (h.2.1 e he).2⟩
    · simp only [List.mem_singleton] at he
      subst he
      exact ⟨le_refl _, le_refl _, fun _ => rfl, fun hkk => absurd hkk hk⟩

/-- Appending an instantaneous reward event whose amplitude is the
legacy default or a reward-row payload preserves the Reward bucket. -/
theorem bucketOK_append_reward (L : List Row) (l : List Event) (t τ a : Rat)
    (h : BucketOK L "Reward" l t none) (ht : t ≤ τ)
    (hamp : a = 0.04 ∨ ∃ rr, rr ∈ L ∧
      (rr.event = "ResponseReward" ∨ rr.event = "TaskReward" ∨
       rr.event = "ManualReward") ∧ a = rr.infoVal) :
    BucketOK L "Reward" (l ++ [mkEvent τ none a]) τ none := by
  refine ⟨?_, ?_, fun v hv => by cases hv⟩
  · refine List.pairwise_append.mpr ⟨h.1, List.pairwise_singleton _ _, ?_⟩
    intro x hx y hy
    simp only [List.mem_singleton] at hy
    subst hy
    exact le_trans (h.2.1 x hx).1 ht
  · intro e he
    rcases List.mem_append.mp he with he | he
    · exact ⟨le_trans (h.2.1 e he).1 ht, (h.2.1 e he).2⟩
    · simp only [List.mem_singleton] at he
      subst he
      exact ⟨le_refl _, le_refl _, fun hkk => absurd rfl hkk, fun _ => hamp⟩

/-- The scan invariant is monotone in the time bound. -/
theorem inv_mono (L : List Row) (t t' : Rat) (s : ScanState)
    (h : Inv L t s) (ht : t ≤ t') : Inv L t' s :=
  ⟨bucketOK_mono _ _ _ _ _ _ h.hUL ht, bucketOK_mono _ _ _ _ _ _ h.hDL ht,
   bucketOK_mono _ _ _ _ _ _ h.hUR ht, bucketOK_mono _ _ _ _ _ _ h.hDR ht,
   bucketOK_mono _ _ _ _ _ _ h.hCe ht, bucketOK_mono _ _ _ _ _ _ h.hFH ht,
   bucketOK_mono _ _ _ _ _ _ h.hNR ht, bucketOK_mono _ _ _ _ _ _ h.hFB ht,
   bucketOK_mono _ _ _ _ _ _ h.hNC ht, bucketOK_mono _ _ _ _ _ _ h.hPS ht,
   bucketOK_mono _ _ _ _ _ _ h.hRC ht, bucketOK_mono _ _ _ _ _ _ h.hHL ht,
   bucketOK_mono _ _ _ _ _ _ h.hHR ht, bucketOK_mono _ _ _ _ _ _ h.hRW ht,
   bucketOK_mono _ _ _ _ _ _ h.hFT ht, bucketOK_mono _ _ _ _ _ _ h.hFX ht,
   optLe_mono _ _ _ h.bFX ht, optLe_mono _ _ _ h.bST ht,
   optLe_mono _ _ _ h.bFS ht, optLe_mono _ _ _ h.bRC ht⟩

/-- The scan invariant holds at the initial state for any bound. -/
theorem inv_init (L : List Row) (t : Rat) : Inv L t initState :=
  ⟨bucketOK_nil L _ t _, bucketOK_nil L _ t _, bucketOK_nil L _ t _,
   bucketOK_nil L _ t _, bucketOK_nil L _ t _, bucketOK_nil L _ t _,
   bucketOK_nil L _ t _, bucketOK_nil L _ t _, bucketOK_nil L _ t _,
   bucketOK_nil L _ t _, bucketOK_nil L _ t _, bucketOK_nil L _ t _,
   bucketOK_nil L _ t _, bucketOK_nil L _ t _, bucketOK_nil L _ t _,
   bucketOK_nil L _ t _, optLe_none t, optLe_none t, optLe_none t, optLe_none t⟩

/-- The NewState update preserves the scan invariant. -/
theorem inv_newStatePass (L : List Row) (t : Rat) (s : ScanState) (r : Row)
    (h : Inv L t s) : Inv L t (newStatePass s r) := by
  unfold newStatePass
  split
  · exact ⟨h.hUL, h.hDL, h.hUR, h.hDR, h.hCe, h.hFH, h.hNR, h.hFB, h.hNC,
      h.hPS, h.hRC, h.hHL, h.hHR, h.hRW, h.hFT, h.hFX, h.bFX, h.bST, h.bFS, h.bRC⟩
  · exact h

end CurveTracing

namespace CurveTracing

/-- Fixation tracking ignores rows of any other event type. -/
theorem fixationPass_not (s : ScanState) (r : Row) (hev : ¬ r.event = "Fixation") :
    fixationPass s r = .ok s := by
  unfold fixationPass
  simp [hev]

/-- An Out row closes the open fixation interval into the Fixating
bucket and clears the onset. -/
theorem fixationPass_out (s : ScanState) (r : Row) (b : Rat)
    (hev : r.event = "Fixation") (hinfo : r.info = "Out")
    (hbf : s.began_fixation = some b) :
    fixationPass s r = .ok { s with split_ev := { s.split_ev with
                                      fixating := s.split_ev.fixating ++ [mkEvent b (some r.time_s) 1] },
                                    began_fixation := none } := by
  unfold fixationPass
  simp [hev, hinfo, hbf, SplitEv.append1]

/-- An Out row with no open interval just clears the onset. -/
theorem fixationPass_out_none (s : ScanState) (r : Row)
    (hev : r.event = "Fixation") (hinfo : r.info = "Out")
    (hbf : s.began_fixation = none) :
    fixationPass s r = .ok { s with began_fixation := none } := by
  unfold fixationPass
  simp [hev, hinfo, hbf]

/-- An In row records the fixation onset. -/
theorem fixationPass_in (s : ScanState) (r : Row)
    (hev : r.event = "Fixation") (hinfo : r.info = "In") :
    fixationPass s r = .ok { s with began_fixation := some r.time_s } := by
  unfold fixationPass
  simp [hev, hinfo]

/-- Any other fixation payload raises the assert. -/
theorem fixationPass_bad (s : ScanState) (r : Row)
    (hev : r.event = "Fixation") (ho : ¬ r.info = "Out") (hi : ¬ r.info = "In") :
    fixationPass s r = .error .unrecognizedFixationInfo := by
  unfold fixationPass
  simp [hev, ho, hi]

/-- Fixation tracking preserves the scan invariant at the row time
bound. -/
theorem inv_fixationPass (L : List Row) (s s2 : ScanState) (r : Row)
    (hI : Inv L r.time_s s) (h : fixationPass s r = .ok s2) :
    Inv L r.time_s s2 := by
  by_cases hev : r.event = "Fixation"
  · by_cases ho : r.info = "Out"
    · cases hbf : s.began_fixation with
      | none =>
        rw [fixationPass_out_none s r hev ho hbf] at h
        simp only [Except.ok.injEq] at h
        subst h
        exact ⟨hI.hUL, hI.hDL, hI.hUR, hI.hDR, hI.hCe, hI.hFH, hI.hNR, hI.hFB,
          hI.hNC, hI.hPS, hI.hRC, hI.hHL, hI.hHR, hI.hRW, hI.hFT,
          bucketOK_src_none _ _ _ _ _ hI.hFX, optLe_none _, hI.bST, hI.bFS, hI.bRC⟩
      | some b =>
        rw [fixationPass_out s r b hev ho hbf] at h
        simp only [Except.ok.injEq] at h
        subst h
        refine ⟨hI.hUL, hI.hDL, hI.hUR, hI.hDR, hI.hCe, hI.hFH, hI.hNR, hI.hFB,
          hI.hNC, hI.hPS, hI.hRC, hI.hHL, hI.hHR, hI.hRW, hI.hFT, ?_,
          optLe_none _, hI.bST, hI.bFS, hI.bRC⟩
        exact bucketOK_src_none _ _ _ _ _
          (bucketOK_append_span L "Fixating" _ r.time_s b r.time_s
            (hbf ▸ hI.hFX) (hI.bFX b hbf) (le_refl _) (by decide))
    · by_cases hi : r.info = "In"
      · rw [fixationPass_in s r hev hi] at h
        simp only [Except.ok.injEq] at h
        subst h
        exact ⟨hI.hUL, hI.hDL, hI.hUR, hI.hDR, hI.hCe, hI.hFH, hI.hNR, hI.hFB,
          hI.hNC, hI.hPS, hI.hRC, hI.hHL, hI.hHR, hI.hRW, hI.hFT,
          bucketOK_src_set _ _ _ _ _ _ hI.hFX (le_refl _), optLe_self _,
          hI.bST, hI.bFS, hI.bRC⟩
      · rw [fixationPass_bad s r hev ho hi] at h
        exact absurd h (by simp)
  · rw [fixationPass_not s r hev] at h
    simp only [Except.ok.injEq] at h
    subst h
    exact hI

end CurveTracing

namespace CurveTracing

/-- A string extending p cannot equal a string whose first characters
differ from p. -/
theorem prefix_ne (p t k : String) (hk : k.data.take p.data.length ≠ p.data) :
    ¬ (p ++ t = k) := by
  intro h
  apply hk
  rw [← h, String.data_append, List.take_left]

/-- A successful append under an Attend-formatted key lands in one of
the five attend buckets. -/
theorem append1_attend (sp sp' : SplitEv) (tn : String) (e : Event)
    (h : sp.append1 ("Attend" ++ (tn ++ "_COR")) e = .ok sp') :
    "Attend" ++ (tn ++ "_COR") = "AttendUL_COR" ∨
    "Attend" ++ (tn ++ "_COR") = "AttendDL_COR" ∨
    "Attend" ++ (tn ++ "_COR") = "AttendUR_COR" ∨
    "Attend" ++ (tn ++ "_COR") = "AttendDR_COR" ∨
    "Attend" ++ (tn ++ "_COR") = "AttendCenter_COR" := by
  by_cases h1 : "Attend" ++ (tn ++ "_COR") = "AttendUL_COR"
  · exact Or.inl h1
  by_cases h2 : "Attend" ++ (tn ++ "_COR") = "AttendDL_COR"
  · exact Or.inr (Or.inl h2)
  by_cases h3 : "Attend" ++ (tn ++ "_COR") = "AttendUR_COR"
  · exact Or.inr (Or.inr (Or.inl h3))
  by_cases h4 : "Attend" ++ (tn ++ "_COR") = "AttendDR_COR"
  · exact Or.inr (Or.inr (Or.inr (Or.inl h4)))
  by_cases h5 : "Attend" ++ (tn ++ "_COR") = "AttendCenter_COR"
  · exact Or.inr (Or.inr (Or.inr (Or.inr h5)))
  exfalso
  have n6 : ¬ ("Attend" ++ (tn ++ "_COR") = "CurveFalseHit") := prefix_ne _ _ _ (by decide)
  have n7 : ¬ ("Attend" ++ (tn ++ "_COR") = "CurveNoResponse") := prefix_ne _ _ _ (by decide)
  have n8 : ¬ ("Attend" ++ (tn ++ "_COR") = "CurveFixationBreak") := prefix_ne _ _ _ (by decide)
  have n9 : ¬ ("Attend" ++ (tn ++ "_COR") = "CurveNotCOR") := prefix_ne _ _ _ (by decide)
  have n10 : ¬ ("Attend" ++ (tn ++ "_COR") = "PreSwitchCurves") := prefix_ne _ _ _ (by decide)
  have n11 : ¬ ("Attend" ++ (tn ++ "_COR") = "ResponseCues") := prefix_ne _ _ _ (by decide)
  have n12 : ¬ ("Attend" ++ (tn ++ "_COR") = "HandLeft") := prefix_ne _ _ _ (by decide)
  have n13 : ¬ ("Attend" ++ (tn ++ "_COR") = "HandRight") := prefix_ne _ _ _ (by decide)
  have n14 : ¬ ("Attend" ++ (tn ++ "_COR") = "Reward") := prefix_ne _ _ _ (by decide)
  have n15 : ¬ ("Attend" ++ (tn ++ "_COR") = "FixationTask") := prefix_ne _ _ _ (by decide)
  have n16 : ¬ ("Attend" ++ (tn ++ "_COR") = "Fixating") := prefix_ne _ _ _ (by decide)
  unfold SplitEv.append1 at h
  simp only [if_neg h1, if_neg h2, if_neg h3, if_neg h4, if_neg h5, if_neg n6,
    if_neg n7, if_neg n8, if_neg n9, if_neg n10, if_neg n11, if_neg n12,
    if_neg n13, if_neg n14, if_neg n15, if_neg n16] at h
  exact absurd h (by simp)

/-- A successful append under a Hand-formatted key lands in one of the
two hand buckets. -/
theorem append1_hand (sp sp' : SplitEv) (info : String) (e : Event)
    (h : sp.append1 ("Hand" ++ info) e = .ok sp') :
    "Hand" ++ info = "HandLeft" ∨ "Hand" ++ info = "HandRight" := by
  by_cases h1 : "Hand" ++ info = "HandLeft"
  · exact Or.inl h1
  by_cases h2 : "Hand" ++ info = "HandRight"
  · exact Or.inr h2
  exfalso
  have n1 : ¬ ("Hand" ++ info = "AttendUL_COR") := prefix_ne _ _ _ (by decide)
  have n2 : ¬ ("Hand" ++ info = "AttendDL_COR") := prefix_ne _ _ _ (by decide)
  have n3 : ¬ ("Hand" ++ info = "AttendUR_COR") := prefix_ne _ _ _ (by decide)
  have n4 : ¬ ("Hand" ++ info = "AttendDR_COR") := prefix_ne _ _ _ (by decide)
  have n5 : ¬ ("Hand" ++ info = "AttendCenter_COR") := prefix_ne _ _ _ (by decide)
  have n6 : ¬ ("Hand" ++ info = "CurveFalseHit") := prefix_ne _ _ _ (by decide)
  have n7 : ¬ ("Hand" ++ info = "CurveNoResponse") := prefix_ne _ _ _ (by decide)
  have n8 : ¬ ("Hand" ++ info = "CurveFixationBreak") := prefix_ne _ _ _ (by decide)
  have n9 : ¬ ("Hand" ++ info = "CurveNotCOR") := prefix_ne _ _ _ (by decide)
  have n10 : ¬ ("Hand" ++ info = "PreSwitchCurves") := prefix_ne _ _ _ (by decide)
  have n11 : ¬ ("Hand" ++ info = "ResponseCues") := prefix_ne _ _ _ (by decide)
  have n14 : ¬ ("Hand" ++ info = "Reward") := prefix_ne _ _ _ (by decide)
  have n15 : ¬ ("Hand" ++ info = "FixationTask") := prefix_ne _ _ _ (by decide)
  have n16 : ¬ ("Hand" ++ info = "Fixating") := prefix_ne _ _ _ (by decide)
  unfold SplitEv.append1 at h
  simp only [if_neg n1, if_neg n2, if_neg n3, if_neg n4, if_neg n5, if_neg n6,
    if_neg n7, if_neg n8, if_neg n9, if_neg n10, if_neg n11, if_neg h1,
    if_neg h2, if_neg n14, if_neg n15, if_neg n16] at h
  exact absurd h (by simp)

end CurveTracing

namespace CurveTracing

/-- The recorded source of a bucket whose option equals the span start
can replace that start as the bucket source. -/
theorem bucketOK_src_eq (L : List Row) (k : String) (l : List Event) (t a : Rat)
    (o : Option Rat) (h : BucketOK L k l t (some a)) (he : o = some a) :
    BucketOK L k l t o :=
  ⟨h.1, h.2.1, fun v hv e hel => by
    rw [he] at hv
    injection hv with hv
    rw [← hv]
    exact h.2.2 a rfl e hel⟩

set_option maxHeartbeats 3200000 in
/-- The trial-resolution branch preserves the scan invariant at the row
time bound. -/
theorem inv_postswitchPass (L : List Row) (s s2 : ScanState) (r : Row)
    (hI : Inv L r.time_s s) (h : postswitchPass s r = .ok s2) :
    Inv L r.time_s s2 := by
  unfold postswitchPass at h
  split at h
  · exact absurd h (by simp)
  · split at h
    · exact absurd h (by simp)
    · rename_i t0 hstim
      split at h
      · exact absurd h (by simp)
      · rename_i sp happ1
        split at h
        · exact absurd h (by simp)
        · rename_i et hcls
          split at h
          · exact absurd h (by simp)
          · rename_i sp2 happ2
            split at h
            · exact absurd h (by simp)
            · rename_i sp3 happ3
              split at h
              · exact absurd h (by simp)
              · rename_i sp4 happ4
                simp [SplitEv.append1] at happ1
                subst happ1
                have hta : t0 ≤ r.time_s := hI.bST t0 hstim
                have hPS1 : BucketOK L "PreSwitchCurves" (s.split_ev.preSwitchCurves ++ [mkEvent t0 (some r.time_s) 1]) r.time_s s.curve_stim_on :=
                  bucketOK_src_eq L _ _ _ t0 _
                    (bucketOK_append_span L _ _ r.time_s t0 r.time_s (by rw [← hstim]; exact hI.hPS) hta (le_refl _) (by decide)) hstim
                unfold classify at hcls
                split_ifs at hcls with c1 c2 c3 c4 c5
                · simp only [Except.ok.injEq] at hcls
                  subst hcls
                  simp [SplitEv.append1] at happ2
                  subst happ2
                  simp [SplitEv.append1] at happ3
                  subst happ3
                  have hFH1 : BucketOK L "CurveFalseHit" (s.split_ev.curveFalseHit ++ [mkEvent t0 (some r.time_s) 1]) r.time_s s.curve_stim_on :=
                    bucketOK_src_eq L _ _ _ t0 _
                      (bucketOK_append_span L _ _ r.time_s t0 r.time_s (by rw [← hstim]; exact hI.hFH) hta (le_refl _) (by decide)) hstim
                  have hNC1 : BucketOK L "CurveNotCOR" (s.split_ev.curveNotCOR ++ [mkEvent t0 (some r.time_s) 1]) r.time_s s.curve_stim_on :=
                    bucketOK_src_eq L _ _ _ t0 _
                      (bucketOK_append_span L _ _ r.time_s t0 r.time_s (by rw [← hstim]; exact hI.hNC) hta (le_refl _) (by decide)) hstim
                  rcases hrc : s.response_cues_on with _ | rc
                  · rw [hrc] at happ4
                    simp at happ4
                    subst happ4
                    simp only [Except.ok.injEq] at h
                    subst h
                    exact ⟨hI.hUL, hI.hDL, hI.hUR, hI.hDR, hI.hCe, hFH1, hI.hNR, hI.hFB, hNC1, hPS1, hI.hRC, hI.hHL, hI.hHR, hI.hRW, hI.hFT, hI.hFX, hI.bFX, hI.bST, hI.bFS, hI.bRC⟩
                  · rw [hrc] at happ4
                    simp [SplitEv.append1] at happ4
                    subst happ4
                    have hRC1 : BucketOK L "ResponseCues" (s.split_ev.responseCues ++ [mkEvent rc (some r.time_s) 1]) r.time_s s.response_cues_on :=
                      bucketOK_src_eq L _ _ _ rc _
                        (bucketOK_append_span L _ _ r.time_s rc r.time_s (by rw [← hrc]; exact hI.hRC) (hI.bRC rc hrc) (le_refl _) (by decide)) hrc
                    simp only [Except.ok.injEq] at h
                    subst h
                    exact ⟨hI.hUL, hI.hDL, hI.hUR, hI.hDR, hI.hCe, hFH1, hI.hNR, hI.hFB, hNC1, hPS1, hRC1, hI.hHL, hI.hHR, hI.hRW, hI.hFT, hI.hFX, hI.bFX, hI.bST, hI.bFS, hI.bRC⟩
                · simp only [Except.ok.injEq] at hcls
                  subst hcls
                  simp [SplitEv.append1] at happ2
                  subst happ2
                  simp [SplitEv.append1] at happ3
                  subst happ3
                  have hNR1 : BucketOK L "CurveNoResponse" (s.split_ev.curveNoResponse ++ [mkEvent t0 (some r.time_s) 1]) r.time_s s.curve_stim_on :=
                    bucketOK_src_eq L _ _ _ t0 _
                      (bucketOK_append_span L _ _ r.time_s t0 r.time_s (by rw [← hstim]; exact hI.hNR) hta (le_refl _) (by decide)) hstim
                  have hNC1 : BucketOK L "CurveNotCOR" (s.split_ev.curveNotCOR ++ [mkEvent t0 (some r.time_s) 1]) r.time_s s.curve_stim_on :=
                    bucketOK_src_eq L _ _ _ t0 _
                      (bucketOK_append_span L _ _ r.time_s t0 r.time_s (by rw [← hstim]; exact hI.hNC) hta (le_refl _) (by decide)) hstim
                  rcases hrc : s.response_cues_on with _ | rc
                  · rw [hrc] at happ4
                    simp at happ4
                    subst happ4
                    simp only [Except.ok.injEq] at h
                    subst h
                    exact ⟨hI.hUL, hI.hDL, hI.hUR, hI.hDR, hI.hCe, hI.hFH, hNR1, hI.hFB, hNC1, hPS1, hI.hRC, hI.hHL, hI.hHR, hI.hRW, hI.hFT, hI.hFX, hI.bFX, hI.bST, hI.bFS, hI.bRC⟩
                  · rw [hrc] at happ4
                    simp [SplitEv.append1] at happ4
                    subst happ4
                    have hRC1 : BucketOK L "ResponseCues" (s.split_ev.responseCues ++ [mkEvent rc (some r.time_s) 1]) r.time_s s.response_cues_on :=
                      bucketOK_src_eq L _ _ _ rc _
                        (bucketOK_append_span L _ _ r.time_s rc r.time_s (by rw [← hrc]; exact hI.hRC) (hI.bRC rc hrc) (le_refl _) (by decide)) hrc
                    simp only [Except.ok.injEq] at h
                    subst h
                    exact ⟨hI.hUL, hI.hDL, hI.hUR, hI.hDR, hI.hCe, hI.hFH, hNR1, hI.hFB, hNC1, hPS1, hRC1, hI.hHL, hI.hHR, hI.hRW, hI.hFT, hI.hFX, hI.bFX, hI.bST, hI.bFS, hI.bRC⟩
                · simp only [Except.ok.injEq] at hcls
                  subst hcls
                  simp [SplitEv.append1] at happ2
                  subst happ2
                  simp [SplitEv.append1] at happ3
                  subst happ3
                  have hFB1 : BucketOK L "CurveFixationBreak" (s.split_ev.curveFixationBreak ++ [mkEvent t0 (some r.time_s) 1]) r.time_s s.curve_stim_on :=
                    bucketOK_src_eq L _ _ _ t0 _
                      (bucketOK_append_span L _ _ r.time_s t0 r.time_s (by rw [← hstim]; exact hI.hFB) hta (le_refl _) (by decide)) hstim
                  have hNC1 : BucketOK L "CurveNotCOR" (s.split_ev.curveNotCOR ++ [mkEvent t0 (some r.time_s) 1]) r.time_s s.curve_stim_on :=
                    bucketOK_src_eq L _ _ _ t0 _
                      (bucketOK_append_span L _ _ r.time_s t0 r.time_s (by rw [← hstim]; exact hI.hNC) hta (le_refl _) (by decide)) hstim
                  rcases hrc : s.response_cues_on with _ | rc
                  · rw [hrc] at happ4
                    simp at happ4
                    subst happ4
                    simp only [Except.ok.injEq] at h
                    subst h
                    exact ⟨hI.hUL, hI.hDL, hI.hUR, hI.hDR, hI.hCe, hI.hFH, hI.hNR, hFB1, hNC1, hPS1, hI.hRC, hI.hHL, hI.hHR, hI.hRW, hI.hFT, hI.hFX, hI.bFX, hI.bST, hI.bFS, hI.bRC⟩
                  · rw [hrc] at happ4
                    simp [SplitEv.append1] at happ4
                    subst happ4
                    have hRC1 : BucketOK L "ResponseCues" (s.split_ev.responseCues ++ [mkEvent rc (some r.time_s) 1]) r.time_s s.response_cues_on :=
                      bucketOK_src_eq L _ _ _ rc _
                        (bucketOK_append_span L _ _ r.time_s rc r.time_s (by rw [← hrc]; exact hI.hRC) (hI.bRC rc hrc) (le_refl _) (by decide)) hrc
                    simp only [Except.ok.injEq] at h
                    subst h
                    exact ⟨hI.hUL, hI.hDL, hI.hUR, hI.hDR, hI.hCe, hI.hFH, hI.hNR, hFB1, hNC1, hPS1, hRC1, hI.hHL, hI.hHR, hI.hRW, hI.hFT, hI.hFX, hI.bFX, hI.bST, hI.bFS, hI.bRC⟩
                · simp only [Except.ok.injEq] at hcls
                  subst hcls
                  simp [SplitEv.append1] at happ2
                  subst happ2
                  simp [SplitEv.append1] at happ3
                  subst happ3
                  have hFB1 : BucketOK L "CurveFixationBreak" (s.split_ev.curveFixationBreak ++ [mkEvent t0 (some r.time_s) 1]) r.time_s s.curve_stim_on :=
                    bucketOK_src_eq L _ _ _ t0 _
                      (bucketOK_append_span L _ _ r.time_s t0 r.time_s (by rw [← hstim]; exact hI.hFB) hta (le_refl _) (by decide)) hstim
                  have hNC1 : BucketOK L "CurveNotCOR" (s.split_ev.curveNotCOR ++ [mkEvent t0 (some r.time_s) 1]) r.time_s s.curve_stim_on :=
                    bucketOK_src_eq L _ _ _ t0 _
                      (bucketOK_append_span L _ _ r.time_s t0 r.time_s (by rw [← hstim]; exact hI.hNC) hta (le_refl _) (by decide)) hstim
                  rcases hrc : s.response_cues_on with _ | rc
                  · rw [hrc] at happ4
                    simp at happ4
                    subst happ4
                    simp only [Except.ok.injEq] at h
                    subst h
                    exact ⟨hI.hUL, hI.hDL, hI.hUR, hI.hDR, hI.hCe, hI.hFH, hI.hNR, hFB1, hNC1, hPS1, hI.hRC, hI.hHL, hI.hHR, hI.hRW, hI.hFT, hI.hFX, hI.bFX, hI.bST, hI.bFS, hI.bRC⟩
                  · rw [hrc] at happ4
                    simp [SplitEv.append1] at happ4
                    subst happ4
                    have hRC1 : BucketOK L "ResponseCues" (s.split_ev.responseCues ++ [mkEvent rc (some r.time_s) 1]) r.time_s s.response_cues_on :=
                      bucketOK_src_eq L _ _ _ rc _
                        (bucketOK_append_span L _ _ r.time_s rc r.time_s (by rw [← hrc]; exact hI.hRC) (hI.bRC rc hrc) (le_refl _) (by decide)) hrc
                    simp only [Except.ok.injEq] at h
                    subst h
                    exact ⟨hI.hUL, hI.hDL, hI.hUR, hI.hDR, hI.hCe, hI.hFH, hI.hNR, hFB1, hNC1, hPS1, hRC1, hI.hHL, hI.hHR, hI.hRW, hI.hFT, hI.hFX, hI.bFX, hI.bST, hI.bFS, hI.bRC⟩
                · simp only [Except.ok.injEq] at hcls
                  subst hcls
                  rw [String.append_assoc] at happ2 happ3
                  rcases append1_attend _ _ _ _ happ2 with hkey | hkey | hkey | hkey | hkey <;> rw [hkey] at happ2 happ3
                  · simp [SplitEv.append1] at happ2
                    subst happ2
                    simp at happ3
                    subst happ3
                    have hUL1 : BucketOK L "AttendUL_COR" (s.split_ev.attendUL_COR ++ [mkEvent t0 (some r.time_s) 1]) r.time_s s.curve_stim_on :=
                      bucketOK_src_eq L _ _ _ t0 _
                        (bucketOK_append_span L _ _ r.time_s t0 r.time_s (by rw [← hstim]; exact hI.hUL) hta (le_refl _) (by decide)) hstim
                    rcases hrc : s.response_cues_on with _ | rc
                    · rw [hrc] at happ4
                      simp at happ4
                      subst happ4
                      simp only [Except.ok.injEq] at h
                      subst h
                      exact ⟨hUL1, hI.hDL, hI.hUR, hI.hDR, hI.hCe, hI.hFH, hI.hNR, hI.hFB, hI.hNC, hPS1, hI.hRC, hI.hHL, hI.hHR, hI.hRW, hI.hFT, hI.hFX, hI.bFX, hI.bST, hI.bFS, hI.bRC⟩
                    · rw [hrc] at happ4
                      simp [SplitEv.append1] at happ4
                      subst happ4
                      have hRC1 : BucketOK L "ResponseCues" (s.split_ev.responseCues ++ [mkEvent rc (some r.time_s) 1]) r.time_s s.response_cues_on :=
                        bucketOK_src_eq L _ _ _ rc _
                          (bucketOK_append_span L _ _ r.time_s rc r.time_s (by rw [← hrc]; exact hI.hRC) (hI.bRC rc hrc) (le_refl _) (by decide)) hrc
                      simp only [Except.ok.injEq] at h
                      subst h
                      exact ⟨hUL1, hI.hDL, hI.hUR, hI.hDR, hI.hCe, hI.hFH, hI.hNR, hI.hFB, hI.hNC, hPS1, hRC1, hI.hHL, hI.hHR, hI.hRW, hI.hFT, hI.hFX, hI.bFX, hI.bST, hI.bFS, hI.bRC⟩
                  · simp [SplitEv.append1] at happ2
                    subst happ2
                    simp at happ3
                    subst happ3
                    have hDL1 : BucketOK L "AttendDL_COR" (s.split_ev.attendDL_COR ++ [mkEvent t0 (some r.time_s) 1]) r.time_s s.curve_stim_on :=
                      bucketOK_src_eq L _ _ _ t0 _
                        (bucketOK_append_span L _ _ r.time_s t0 r.time_s (by rw [← hstim]; exact hI.hDL) hta (le_refl _) (by decide)) hstim
                    rcases hrc : s.response_cues_on with _ | rc
                    · rw [hrc] at happ4
                      simp at happ4
                      subst happ4
                      simp only [Except.ok.injEq] at h
                      subst h
                      exact ⟨hI.hUL, hDL1, hI.hUR, hI.hDR, hI.hCe, hI.hFH, hI.hNR, hI.hFB, hI.hNC, hPS1, hI.hRC, hI.hHL, hI.hHR, hI.hRW, hI.hFT, hI.hFX, hI.bFX, hI.bST, hI.bFS, hI.bRC⟩
                    · rw [hrc] at happ4
                      simp [SplitEv.append1] at happ4
                      subst happ4
                      have hRC1 : BucketOK L "ResponseCues" (s.split_ev.responseCues ++ [mkEvent rc (some r.time_s) 1]) r.time_s s.response_cues_on :=
                        bucketOK_src_eq L _ _ _ rc _
                          (bucketOK_append_span L _ _ r.time_s rc r.time_s (by rw [← hrc]; exact hI.hRC) (hI.bRC rc hrc) (le_refl _) (by decide)) hrc
                      simp only [Except.ok.injEq] at h
                      subst h
                      exact ⟨hI.hUL, hDL1, hI.hUR, hI.hDR, hI.hCe, hI.hFH, hI.hNR, hI.hFB, hI.hNC, hPS1, hRC1, hI.hHL, hI.hHR, hI.hRW, hI.hFT, hI.hFX, hI.bFX, hI.bST, hI.bFS, hI.bRC⟩
                  · simp [SplitEv.append1] at happ2
                    subst happ2
                    simp at happ3
                    subst happ3
                    have hUR1 : BucketOK L "AttendUR_COR" (s.split_ev.attendUR_COR ++ [mkEvent t0 (some r.time_s) 1]) r.time_s s.curve_stim_on :=
                      bucketOK_src_eq L _ _ _ t0 _
                        (bucketOK_append_span L _ _ r.time_s t0 r.time_s (by rw [← hstim]; exact hI.hUR) hta (le_refl _) (by decide)) hstim
                    rcases hrc : s.response_cues_on with _ | rc
                    · rw [hrc] at happ4
                      simp at happ4
                      subst happ4
                      simp only [Except.ok.injEq] at h
                      subst h
                      exact ⟨hI.hUL, hI.hDL, hUR1, hI.hDR, hI.hCe, hI.hFH, hI.hNR, hI.hFB, hI.hNC, hPS1, hI.hRC, hI.hHL, hI.hHR, hI.hRW, hI.hFT, hI.hFX, hI.bFX, hI.bST, hI.bFS, hI.bRC⟩
                    · rw [hrc] at happ4
                      simp [SplitEv.append1] at happ4
                      subst happ4
                      have hRC1 : BucketOK L "ResponseCues" (s.split_ev.responseCues ++ [mkEvent rc (some r.time_s) 1]) r.time_s s.response_cues_on :=
                        bucketOK_src_eq L _ _ _ rc _
                          (bucketOK_append_span L _ _ r.time_s rc r.time_s (by rw [← hrc]; exact hI.hRC) (hI.bRC rc hrc) (le_refl _) (by decide)) hrc
                      simp only [Except.ok.injEq] at h
                      subst h
                      exact ⟨hI.hUL, hI.hDL, hUR1, hI.hDR, hI.hCe, hI.hFH, hI.hNR, hI.hFB, hI.hNC, hPS1, hRC1, hI.hHL, hI.hHR, hI.hRW, hI.hFT, hI.hFX, hI.bFX, hI.bST, hI.bFS, hI.bRC⟩
                  · simp [SplitEv.append1] at happ2
                    subst happ2
                    simp at happ3
                    subst happ3
                    have hDR1 : BucketOK L "AttendDR_COR" (s.split_ev.attendDR_COR ++ [mkEvent t0 (some r.time_s) 1]) r.time_s s.curve_stim_on :=
                      bucketOK_src_eq L _ _ _ t0 _
                        (bucketOK_append_span L _ _ r.time_s t0 r.time_s (by rw [← hstim]; exact hI.hDR) hta (le_refl _) (by decide)) hstim
                    rcases hrc : s.response_cues_on with _ | rc
                    · rw [hrc] at happ4
                      simp at happ4
                      subst happ4
                      simp only [Except.ok.injEq] at h
                      subst h
                      exact ⟨hI.hUL, hI.hDL, hI.hUR, hDR1, hI.hCe, hI.hFH, hI.hNR, hI.hFB, hI.hNC, hPS1, hI.hRC, hI.hHL, hI.hHR, hI.hRW, hI.hFT, hI.hFX, hI.bFX, hI.bST, hI.bFS, hI.bRC⟩
                    · rw [hrc] at happ4
                      simp [SplitEv.append1] at happ4
                      subst happ4
                      have hRC1 : BucketOK L "ResponseCues" (s.split_ev.responseCues ++ [mkEvent rc (some r.time_s) 1]) r.time_s s.response_cues_on :=
                        bucketOK_src_eq L _ _ _ rc _
                          (bucketOK_append_span L _ _ r.time_s rc r.time_s (by rw [← hrc]; exact hI.hRC) (hI.bRC rc hrc) (le_refl _) (by decide)) hrc
                      simp only [Except.ok.injEq] at h
                      subst h
                      exact ⟨hI.hUL, hI.hDL, hI.hUR, hDR1, hI.hCe, hI.hFH, hI.hNR, hI.hFB, hI.hNC, hPS1, hRC1, hI.hHL, hI.hHR, hI.hRW, hI.hFT, hI.hFX, hI.bFX, hI.bST, hI.bFS, hI.bRC⟩
                  · simp [SplitEv.append1] at happ2
                    subst happ2
                    simp at happ3
                    subst happ3
                    have hCe1 : BucketOK L "AttendCenter_COR" (s.split_ev.attendCenter_COR ++ [mkEvent t0 (some r.time_s) 1]) r.time_s s.curve_stim_on :=
                      bucketOK_src_eq L _ _ _ t0 _
                        (bucketOK_append_span L _ _ r.time_s t0 r.time_s (by rw [← hstim]; exact hI.hCe) hta (le_refl _) (by decide)) hstim
                    rcases hrc : s.response_cues_on with _ | rc
                    · rw [hrc] at happ4
                      simp at happ4
                      subst happ4
                      simp only [Except.ok.injEq] at h
                      subst h
                      exact ⟨hI.hUL, hI.hDL, hI.hUR, hI.hDR, hCe1, hI.hFH, hI.hNR, hI.hFB, hI.hNC, hPS1, hI.hRC, hI.hHL, hI.hHR, hI.hRW, hI.hFT, hI.hFX, hI.bFX, hI.bST, hI.bFS, hI.bRC⟩
                    · rw [hrc] at happ4
                      simp [SplitEv.append1] at happ4
                      subst happ4
                      have hRC1 : BucketOK L "ResponseCues" (s.split_ev.responseCues ++ [mkEvent rc (some r.time_s) 1]) r.time_s s.response_cues_on :=
                        bucketOK_src_eq L _ _ _ rc _
                          (bucketOK_append_span L _ _ r.time_s rc r.time_s (by rw [← hrc]; exact hI.hRC) (hI.bRC rc hrc) (le_refl _) (by decide)) hrc
                      simp only [Except.ok.injEq] at h
                      subst h
                      exact ⟨hI.hUL, hI.hDL, hI.hUR, hI.hDR, hCe1, hI.hFH, hI.hNR, hI.hFB, hI.hNC, hPS1, hRC1, hI.hHL, hI.hHR, hI.hRW, hI.hFT, hI.hFX, hI.bFX, hI.bST, hI.bFS, hI.bRC⟩

end CurveTracing

namespace CurveTracing

/-- One pass of the if/elif chain preserves the scan invariant at the
row time bound, for a row drawn from the log. -/
theorem inv_chainPass (L : List Row) (s s2 : ScanState) (r : Row)
    (hI : Inv L r.time_s s) (hr : r ∈ L) (h : chainPass s r = .ok s2) :
    Inv L r.time_s s2 := by
  by_cases e1 : r.event = "TargetLoc"
  · rw [chainPass_targetLoc s r e1] at h
    simp only [Except.ok.injEq] at h
    subst h
    exact ⟨hI.hUL, hI.hDL, hI.hUR, hI.hDR, hI.hCe, hI.hFH, hI.hNR, hI.hFB, hI.hNC, hI.hPS, hI.hRC, hI.hHL, hI.hHR, hI.hRW, hI.hFT, hI.hFX, hI.bFX, hI.bST, hI.bFS, hI.bRC⟩
  by_cases e2 : r.event = "NewState"
  · by_cases i1 : r.info = "TRIAL_END"
    · rw [chainPass_trialEnd s r e2 i1] at h
      simp only [Except.ok.injEq] at h
      subst h
      exact ⟨bucketOK_src_none L _ _ _ _ hI.hUL, bucketOK_src_none L _ _ _ _ hI.hDL, bucketOK_src_none L _ _ _ _ hI.hUR, bucketOK_src_none L _ _ _ _ hI.hDR, bucketOK_src_none L _ _ _ _ hI.hCe, bucketOK_src_none L _ _ _ _ hI.hFH, bucketOK_src_none L _ _ _ _ hI.hNR, bucketOK_src_none L _ _ _ _ hI.hFB, bucketOK_src_none L _ _ _ _ hI.hNC, bucketOK_src_none L _ _ _ _ hI.hPS, bucketOK_src_none L _ _ _ _ hI.hRC, hI.hHL, hI.hHR, hI.hRW, bucketOK_src_none L _ _ _ _ hI.hFT, hI.hFX, hI.bFX, optLe_none _, optLe_none _, optLe_none _⟩
    by_cases i2 : r.info = "PRESWITCH"
    · by_cases ht : s.curve_target = none
      · rw [chainPass_preswitch_none s r e2 i2 ht] at h
        exact absurd h (by simp)
      · rw [chainPass_preswitch s r e2 i2 ht] at h
        simp only [Except.ok.injEq] at h
        subst h
        exact ⟨bucketOK_src_set L _ _ _ _ _ hI.hUL (le_refl _), bucketOK_src_set L _ _ _ _ _ hI.hDL (le_refl _), bucketOK_src_set L _ _ _ _ _ hI.hUR (le_refl _), bucketOK_src_set L _ _ _ _ _ hI.hDR (le_refl _), bucketOK_src_set L _ _ _ _ _ hI.hCe (le_refl _), bucketOK_src_set L _ _ _ _ _ hI.hFH (le_refl _), bucketOK_src_set L _ _ _ _ _ hI.hNR (le_refl _), bucketOK_src_set L _ _ _ _ _ hI.hFB (le_refl _), bucketOK_src_set L _ _ _ _ _ hI.hNC (le_refl _), bucketOK_src_set L _ _ _ _ _ hI.hPS (le_refl _), hI.hRC, hI.hHL, hI.hHR, hI.hRW, hI.hFT, hI.hFX, hI.bFX, optLe_self _, hI.bFS, hI.bRC⟩
    by_cases iF : r.info = "FIXATION_PERIOD"
    · by_cases tk : r.task = "Fixation"
      · rw [chainPass_fixPeriod s r tk e2 iF] at h
        simp only [Except.ok.injEq] at h
        subst h
        exact ⟨hI.hUL, hI.hDL, hI.hUR, hI.hDR, hI.hCe, hI.hFH, hI.hNR, hI.hFB, hI.hNC, hI.hPS, hI.hRC, hI.hHL, hI.hHR, hI.hRW, bucketOK_src_set L _ _ _ _ _ hI.hFT (le_refl _), hI.hFX, hI.bFX, hI.bST, optLe_self _, hI.bRC⟩
      · rw [chainPass_newStateFixOnly s r e2 (Or.inl iF) tk] at h
        simp only [Except.ok.injEq] at h
        subst h
        exact hI
    by_cases iP : r.info = "POSTFIXATION"
    · by_cases tk : r.task = "Fixation"
      · rcases hfs : s.fixation_stim_on with _ | b
        · rw [chainPass_postfix_none s r tk e2 iP hfs] at h
          exact absurd h (by simp)
        · rw [chainPass_postfix_some s r b tk e2 iP hfs] at h
          simp only [Except.ok.injEq] at h
          subst h
          have hb : b ≤ r.time_s := hI.bFS b hfs
          have hFT1 : BucketOK L "FixationTask" (s.split_ev.fixationTask ++ [mkEvent b (some r.time_s) 1]) r.time_s s.fixation_stim_on :=
            bucketOK_src_eq L _ _ _ b _
              (bucketOK_append_span L _ _ r.time_s b r.time_s (by rw [← hfs]; exact hI.hFT) hb (le_refl _) (by decide)) hfs
          exact ⟨hI.hUL, hI.hDL, hI.hUR, hI.hDR, hI.hCe, hI.hFH, hI.hNR, hI.hFB, hI.hNC, hI.hPS, hI.hRC, hI.hHL, hI.hHR, hI.hRW, hFT1, hI.hFX, hI.bFX, hI.bST, hI.bFS, hI.bRC⟩
      · rw [chainPass_newStateFixOnly s r e2 (Or.inr iP) tk] at h
        simp only [Except.ok.injEq] at h
        subst h
        exact hI
    by_cases iS : r.info = "SWITCHED"
    · rw [chainPass_switched s r e2 iS] at h
      simp only [Except.ok.injEq] at h
      subst h
      exact ⟨hI.hUL, hI.hDL, hI.hUR, hI.hDR, hI.hCe, hI.hFH, hI.hNR, hI.hFB, hI.hNC, hI.hPS, bucketOK_src_set L _ _ _ _ _ hI.hRC (le_refl _), hI.hHL, hI.hHR, hI.hRW, hI.hFT, hI.hFX, hI.bFX, hI.bST, hI.bFS, optLe_self _⟩
    by_cases iW : r.info = "POSTSWITCH"
    · by_cases tk : r.task = "Fixation"
      · rw [chainPass_newStateFixPostswitch s r e2 iW tk] at h
        simp only [Except.ok.injEq] at h
        subst h
        exact hI
      · rw [chainPass_postswitch s r e2 iW tk] at h
        exact inv_postswitchPass L s s2 r hI h
    rw [chainPass_newStateOther s r e2 i1 i2 iF iP iS iW] at h
    simp only [Except.ok.injEq] at h
    subst h
    exact hI
  by_cases e3 : r.event = "ResponseGiven"
  · by_cases hresp : s.curve_response = none
    · rw [chainPass_respGiven s r e3 hresp] at h
      simp only [Except.ok.injEq] at h
      subst h
      exact ⟨hI.hUL, hI.hDL, hI.hUR, hI.hDR, hI.hCe, hI.hFH, hI.hNR, hI.hFB, hI.hNC, hI.hPS, hI.hRC, hI.hHL, hI.hHR, hI.hRW, hI.hFT, hI.hFX, hI.bFX, hI.bST, hI.bFS, hI.bRC⟩
    · rw [chainPass_respGiven_latched s r e3 hresp] at h
      simp only [Except.ok.injEq] at h
      subst h
      exact hI
  by_cases e4 : r.event = "Response_Initiate"
  · rw [chainPass_respInit s r e4] at h
    rcases happ : s.split_ev.append1 ("Hand" ++ r.info) (mkEvent r.time_s none 1) with er | sp
    · rw [happ] at h
      exact absurd h (by simp)
    · rw [happ] at h
      simp only [Except.ok.injEq] at h
      subst h
      rcases append1_hand _ _ _ _ happ with hkey | hkey
      · rw [hkey] at happ
        simp [SplitEv.append1] at happ
        subst happ
        exact ⟨hI.hUL, hI.hDL, hI.hUR, hI.hDR, hI.hCe, hI.hFH, hI.hNR, hI.hFB, hI.hNC, hI.hPS, hI.hRC, bucketOK_append_inst L "HandLeft" _ _ _ hI.hHL (le_refl _) (by decide), hI.hHR, hI.hRW, hI.hFT, hI.hFX, hI.bFX, hI.bST, hI.bFS, hI.bRC⟩
      · rw [hkey] at happ
        simp [SplitEv.append1] at happ
        subst happ
        exact ⟨hI.hUL, hI.hDL, hI.hUR, hI.hDR, hI.hCe, hI.hFH, hI.hNR, hI.hFB, hI.hNC, hI.hPS, hI.hRC, hI.hHL, bucketOK_append_inst L "HandRight" _ _ _ hI.hHR (le_refl _) (by decide), hI.hRW, hI.hFT, hI.hFX, hI.bFX, hI.bST, hI.bFS, hI.bRC⟩
  by_cases e5 : r.event = "ResponseReward"
  · rw [chainPass_autoReward s r (Or.inl e5)] at h
    simp only [Except.ok.injEq] at h
    subst h
    exact ⟨hI.hUL, hI.hDL, hI.hUR, hI.hDR, hI.hCe, hI.hFH, hI.hNR, hI.hFB, hI.hNC, hI.hPS, hI.hRC, hI.hHL, hI.hHR, bucketOK_append_reward L _ _ _ _ hI.hRW (le_refl _) (Or.inr ⟨r, hr, Or.inl e5, rfl⟩), hI.hFT, hI.hFX, hI.bFX, hI.bST, hI.bFS, hI.bRC⟩
  by_cases e6 : r.event = "TaskReward"
  · rw [chainPass_autoReward s r (Or.inr e6)] at h
    simp only [Except.ok.injEq] at h
    subst h
    exact ⟨hI.hUL, hI.hDL, hI.hUR, hI.hDR, hI.hCe, hI.hFH, hI.hNR, hI.hFB, hI.hNC, hI.hPS, hI.hRC, hI.hHL, hI.hHR, bucketOK_append_reward L _ _ _ _ hI.hRW (le_refl _) (Or.inr ⟨r, hr, Or.inr (Or.inl e6), rfl⟩), hI.hFT, hI.hFX, hI.bFX, hI.bST, hI.bFS, hI.bRC⟩
  by_cases e7 : r.event = "ManualReward"
  · rw [chainPass_manualReward s r e7] at h
    simp only [Except.ok.injEq] at h
    subst h
    exact ⟨hI.hUL, hI.hDL, hI.hUR, hI.hDR, hI.hCe, hI.hFH, hI.hNR, hI.hFB, hI.hNC, hI.hPS, hI.hRC, hI.hHL, hI.hHR, bucketOK_append_reward L _ _ _ _ hI.hRW (le_refl _) (Or.inr ⟨r, hr, Or.inr (Or.inr e7), rfl⟩), hI.hFT, hI.hFX, hI.bFX, hI.bST, hI.bFS, hI.bRC⟩
  by_cases e8 : r.event = "Reward"
  · by_cases i9 : r.info = "Manual"
    · cases hflag : s.has_ManualRewardField with
      | false =>
        rw [chainPass_rewardManual s r e8 i9 hflag] at h
        simp only [Except.ok.injEq] at h
        subst h
        exact ⟨hI.hUL, hI.hDL, hI.hUR, hI.hDR, hI.hCe, hI.hFH, hI.hNR, hI.hFB, hI.hNC, hI.hPS, hI.hRC, hI.hHL, hI.hHR, bucketOK_append_reward L _ _ _ _ hI.hRW (le_refl _) (Or.inl rfl), hI.hFT, hI.hFX, hI.bFX, hI.bST, hI.bFS, hI.bRC⟩
      | true =>
        rw [chainPass_rewardManual_conflict s r e8 i9 hflag] at h
        exact absurd h (by simp)
    · rw [chainPass_rewardOther s r e8 i9] at h
      simp only [Except.ok.injEq] at h
      subst h
      exact hI
  rw [chainPass_other s r e1 e2 e3 e4 e5 e6 e7 e8] at h
  simp only [Except.ok.injEq] at h
  subst h
  exact hI

/-- One scan iteration preserves the invariant at the row time bound. -/
theorem inv_step (L : List Row) (s s2 : ScanState) (r : Row)
    (hI : Inv L r.time_s s) (hr : r ∈ L) (h : step s r = .ok s2) :
    Inv L r.time_s s2 := by
  unfold step at h
  split at h
  · exact absurd h (by simp)
  · rename_i s1 hfix
    exact inv_chainPass L s1 s2 r
      (inv_fixationPass L (newStatePass s r) s1 r (inv_newStatePass L r.time_s s r hI) hfix) hr h

/-- Scanning a sorted suffix of the log from an invariant-respecting
state lands in an invariant-respecting state. -/
theorem inv_scanFrom (L : List Row) (rows : List Row) :
    ∀ (s : ScanState) (t : Rat) (st : ScanState),
      (∀ x ∈ rows, x ∈ L) →
      rows.Pairwise (fun a b => a.time_s ≤ b.time_s) →
      Inv L t s → (∀ x ∈ rows, t ≤ x.time_s) →
      scanFrom s rows = .ok st → ∃ u, Inv L u st := by
  induction rows with
  | nil =>
    intro s t st _ _ hI _ h
    simp only [scanFrom, Except.ok.injEq] at h
    subst h
    exact ⟨t, hI⟩
  | cons r rs ih =>
    intro s t st hsub hsorted hI hbound h
    unfold scanFrom at h
    split at h
    · exact absurd h (by simp)
    · rename_i s1 hstep
      have hmem : r ∈ L := hsub r (List.mem_cons_self r rs)
      have hIr : Inv L r.time_s s := inv_mono L t r.time_s s hI (hbound r (List.mem_cons_self r rs))
      have hI1 : Inv L r.time_s s1 := inv_step L s s1 r hIr hmem hstep
      rcases List.pairwise_cons.mp hsorted with ⟨hhead, htail⟩
      exact ih s1 r.time_s st (fun x hx => hsub x (List.mem_cons_of_mem r hx)) htail hI1
        (fun x hx => hhead x hx) h

/-- Scanning a whole sorted log from the initial state lands in an
invariant-respecting state. -/
theorem inv_scan (L : List Row) (rows : List Row) (st : ScanState)
    (hsub : ∀ x ∈ rows, x ∈ L)
    (hsorted : rows.Pairwise (fun a b => a.time_s ≤ b.time_s))
    (h : scanFrom initState rows = .ok st) : ∃ u, Inv L u st := by
  cases rows with
  | nil =>
    simp only [scanFrom, Except.ok.injEq] at h
    subst h
    exact ⟨0, inv_init L 0⟩
  | cons r rs =>
    rcases List.pairwise_cons.mp hsorted with ⟨hhead, htail⟩
    refine inv_scanFrom L (r :: rs) initState r.time_s st hsub hsorted (inv_init L r.time_s) ?_ h
    intro x hx
    rcases List.mem_cons.mp hx with hx | hx
    · subst hx
      exact le_refl _
    · exact hhead x hx

end CurveTracing

namespace CurveTracing

/-- Any bucket found in the output view of an invariant-respecting
state has non-decreasing onsets and well-formed events. -/
theorem inv_lookup (L : List Row) (t : Rat) (st : ScanState) (hI : Inv L t st)
    (k : String) (l : List Event)
    (h : (SplitEv.toList st.split_ev).lookup k = some l) :
    OnsetsMono l ∧ ∀ e ∈ l, DurAmpP L k e := by
  by_cases h1 : k = "AttendUL_COR"
  · subst h1
    simp [SplitEv.toList, List.lookup] at h
    subst h
    exact ⟨hI.hUL.1, fun e he => (hI.hUL.2.1 e he).2⟩
  by_cases h2 : k = "AttendDL_COR"
  · subst h2
    simp [SplitEv.toList, List.lookup] at h
    subst h
    exact ⟨hI.hDL.1, fun e he => (hI.hDL.2.1 e he).2⟩
  by_cases h3 : k = "AttendUR_COR"
  · subst h3
    simp [SplitEv.toList, List.lookup] at h
    subst h
    exact ⟨hI.hUR.1, fun e he => (hI.hUR.2.1 e he).2⟩
  by_cases h4 : k = "AttendDR_COR"
  · subst h4
    simp [SplitEv.toList, List.lookup] at h
    subst h
    exact ⟨hI.hDR.1, fun e he => (hI.hDR.2.1 e he).2⟩
  by_cases h5 : k = "AttendCenter_COR"
  · subst h5
    simp [SplitEv.toList, List.lookup] at h
    subst h
    exact ⟨hI.hCe.1, fun e he => (hI.hCe.2.1 e he).2⟩
  by_cases h6 : k = "CurveFalseHit"
  · subst h6
    simp [SplitEv.toList, List.lookup] at h
    subst h
    exact ⟨hI.hFH.1, fun e he => (hI.hFH.2.1 e he).2⟩
  by_cases h7 : k = "CurveNoResponse"
  · subst h7
    simp [SplitEv.toList, List.lookup] at h
    subst h
    exact ⟨hI.hNR.1, fun e he => (hI.hNR.2.1 e he).2⟩
  by_cases h8 : k = "CurveFixationBreak"
  · subst h8
    simp [SplitEv.toList, List.lookup] at h
    subst h
    exact ⟨hI.hFB.1, fun e he => (hI.hFB.2.1 e he).2⟩
  by_cases h9 : k = "CurveNotCOR"
  · subst h9
    simp [SplitEv.toList, List.lookup] at h
    subst h
    exact ⟨hI.hNC.1, fun e he => (hI.hNC.2.1 e he).2⟩
  by_cases h10 : k = "PreSwitchCurves"
  · subst h10
    simp [SplitEv.toList, List.lookup] at h
    subst h
    exact ⟨hI.hPS.1, fun e he => (hI.hPS.2.1 e he).2⟩
  by_cases h11 : k = "ResponseCues"
  · subst h11
    simp [SplitEv.toList, List.lookup] at h
    subst h
    exact ⟨hI.hRC.1, fun e he => (hI.hRC.2.1 e he).2⟩
  by_cases h12 : k = "HandLeft"
  · subst h12
    simp [SplitEv.toList, List.lookup] at h
    subst h
    exact ⟨hI.hHL.1, fun e he => (hI.hHL.2.1 e he).2⟩
  by_cases h13 : k = "HandRight"
  · subst h13
    simp [SplitEv.toList, List.lookup] at h
    subst h
    exact ⟨hI.hHR.1, fun e he => (hI.hHR.2.1 e he).2⟩
  by_cases h14 : k = "Reward"
  · subst h14
    simp [SplitEv.toList, List.lookup] at h
    subst h
    exact ⟨hI.hRW.1, fun e he => (hI.hRW.2.1 e he).2⟩
  by_cases h15 : k = "FixationTask"
  · subst h15
    simp [SplitEv.toList, List.lookup] at h
    subst h
    exact ⟨hI.hFT.1, fun e he => (hI.hFT.2.1 e he).2⟩
  by_cases h16 : k = "Fixating"
  · subst h16
    simp [SplitEv.toList, List.lookup] at h
    subst h
    exact ⟨hI.hFX.1, fun e he => (hI.hFX.2.1 e he).2⟩
  have hb1 : (k == "AttendUL_COR") = false := beq_eq_false_iff_ne.mpr h1
  have hb2 : (k == "AttendDL_COR") = false := beq_eq_false_iff_ne.mpr h2
  have hb3 : (k == "AttendUR_COR") = false := beq_eq_false_iff_ne.mpr h3
  have hb4 : (k == "AttendDR_COR") = false := beq_eq_false_iff_ne.mpr h4
  have hb5 : (k == "AttendCenter_COR") = false := beq_eq_false_iff_ne.mpr h5
  have hb6 : (k == "CurveFalseHit") = false := beq_eq_false_iff_ne.mpr h6
  have hb7 : (k == "CurveNoResponse") = false := beq_eq_false_iff_ne.mpr h7
  have hb8 : (k == "CurveFixationBreak") = false := beq_eq_false_iff_ne.mpr h8
  have hb9 : (k == "CurveNotCOR") = false := beq_eq_false_iff_ne.mpr h9
  have hb10 : (k == "PreSwitchCurves") = false := beq_eq_false_iff_ne.mpr h10
  have hb11 : (k == "ResponseCues") = false := beq_eq_false_iff_ne.mpr h11
  have hb12 : (k == "HandLeft") = false := beq_eq_false_iff_ne.mpr h12
  have hb13 : (k == "HandRight") = false := beq_eq_false_iff_ne.mpr h13
  have hb14 : (k == "Reward") = false := beq_eq_false_iff_ne.mpr h14
  have hb15 : (k == "FixationTask") = false := beq_eq_false_iff_ne.mpr h15
  have hb16 : (k == "Fixating") = false := beq_eq_false_iff_ne.mpr h16
  simp [SplitEv.toList, List.lookup, hb1, hb2, hb3, hb4, hb5, hb6, hb7, hb8, hb9, hb10, hb11, hb12, hb13, hb14, hb15, hb16] at h

/-- For a time-sorted log, any bucket of a successful run has
non-decreasing onsets and well-formed events, with reward amplitudes
traced back to rows of the original log. -/
theorem process_bucket_ok (log : List Row) (TR : Rat) (n : Int)
    (hsorted : log.Pairwise (fun a b => a.time_s ≤ b.time_s))
    (k : String) (l : List Event)
    (hk : getBucket (process_events log TR n) k = some l) :
    OnsetsMono l ∧ ∀ e ∈ l, 0 ≤ e.dur_s ∧
      (¬ k = "Reward" → e.amplitude = 1) ∧
      (k = "Reward" → e.amplitude = 0.04 ∨ ∃ rr, rr ∈ log ∧
        (rr.event = "ResponseReward" ∨ rr.event = "TaskReward" ∨
         rr.event = "ManualReward") ∧ e.amplitude = rr.infoVal) := by
  unfold getBucket at hk
  split at hk
  · rename_i out hout
    rcases process_ok_inv log TR n out hout with ⟨events, st, hn, hs, ho1, _, _⟩
    rw [ho1] at hk
    unfold normalizeRows at hn
    split at hn
    · exact absurd hn (by simp)
    · rename_i trig htrig
      simp only [Except.ok.injEq] at hn
      subst hn
      have hsorted2 : (log.map (fun r =>
          { r with time_s := r.time_s - trig.time_s
                   record_time_s := r.record_time_s - trig.time_s })).Pairwise
            (fun a b => a.time_s ≤ b.time_s) :=
        List.pairwise_map.mpr (hsorted.imp (fun hab => sub_le_sub_right hab trig.time_s))
      rcases inv_scan _ _ st (fun x hx => hx) hsorted2 hs with ⟨u, hI⟩
      rcases inv_lookup _ u st hI k l hk with ⟨hmono, hwf⟩
      refine ⟨hmono, fun e he => ?_⟩
      rcases hwf e he with ⟨hd, ha1, har⟩
      refine ⟨hd, ha1, fun hkR => ?_⟩
      rcases har hkR with h04 | ⟨rr, hrr, hev, hamp⟩
      · exact Or.inl h04
      · rcases List.mem_map.mp hrr with ⟨a, ha, hfa⟩
        subst hfa
        exact Or.inr ⟨a, ha, hev, hamp⟩
  · exact absurd hk (by simp)

end CurveTracing

namespace CurveTracing

/-- C7 (amended): on a time-sorted log on which process_events returns,
every event of every condition bucket has nonnegative duration, and its
amplitude is 1 outside the Reward bucket; a Reward amplitude is the
legacy default 0.04 or the numeric payload of a reward-marker row of
the log. -/
theorem c7_dur_amp (log : List Row) (TR : Rat) (n : Int)
    (hsorted : log.Pairwise (fun a b => a.time_s ≤ b.time_s))
    (k : String) (l : List Event)
    (hk : getBucket (process_events log TR n) k = some l)
    (e : Event) (he : e ∈ l) :
    0 ≤ e.dur_s ∧ (¬ k = "Reward" → e.amplitude = 1) ∧
    (k = "Reward" → e.amplitude = 0.04 ∨ ∃ rr, rr ∈ log ∧
      (rr.event = "ResponseReward" ∨ rr.event = "TaskReward" ∨
       rr.event = "ManualReward") ∧ e.amplitude = rr.infoVal) :=
  (process_bucket_ok log TR n hsorted k l hk).2 e he

/-- Witness for C7 on the single-trial log: the one AttendUL_COR event
has nonnegative duration and amplitude 1. -/
theorem c7_dur_amp_witness :
    0 ≤ (mkEvent 5 (some 10) 1).dur_s ∧
    (¬ "AttendUL_COR" = "Reward" → (mkEvent 5 (some 10) 1).amplitude = 1) ∧
    ("AttendUL_COR" = "Reward" → (mkEvent 5 (some 10) 1).amplitude = 0.04 ∨
      ∃ rr, rr ∈ scenALog ∧
        (rr.event = "ResponseReward" ∨ rr.event = "TaskReward" ∨
         rr.event = "ManualReward") ∧ (mkEvent 5 (some 10) 1).amplitude = rr.infoVal) :=
  c7_dur_amp scenALog 1 100
    (by norm_num [scenALog, trigRow, mkRow, List.pairwise_cons])
    "AttendUL_COR" [mkEvent 5 (some 10) 1]
    (by
      simp [process_events, normalizeRows, findTrigger, scenALog, trigRow, mkRow,
        scanFrom, step, newStatePass, fixationPass, chainPass, postswitchPass,
        classify, targetNameOf, SplitEv.append1, mkEvent, getBucket,
        SplitEv.toList, List.lookup, List.find?, initState, initSplitEv])
    (mkEvent 5 (some 10) 1) (by simp)

/-- Counterexample to C7 as stated for all logs: on a log whose
fixation-out row precedes the fixation-in row in time, the run returns
and the Fixating bucket holds an event of negative duration. -/
theorem c7_counterexample :
    getBucket (process_events c7log 1 10) "Fixating" = some [mkEvent 10 (some 5) 1] ∧
    ¬ (0 ≤ (mkEvent 10 (some 5) 1).dur_s) := by
  constructor
  · simp [process_events, normalizeRows, findTrigger, c7log, trigRow, mkRow,
      scanFrom, step, newStatePass, fixationPass, chainPass, postswitchPass,
      classify, targetNameOf, SplitEv.append1, mkEvent, getBucket,
      SplitEv.toList, List.lookup, List.find?, initState, initSplitEv]
  · simp [mkEvent]
    norm_num

/-- C8 (amended): on a time-sorted log on which process_events returns,
the onsets within any single condition bucket are non-decreasing in
append order. -/
theorem c8_onsets_mono (log : List Row) (TR : Rat) (n : Int)
    (hsorted : log.Pairwise (fun a b => a.time_s ≤ b.time_s))
    (k : String) (l : List Event)
    (hk : getBucket (process_events log TR n) k = some l) :
    OnsetsMono l :=
  (process_bucket_ok log TR n hsorted k l hk).1

/-- Witness for C8 on the single-trial log: the AttendUL_COR bucket is
onset-sorted. -/
theorem c8_onsets_mono_witness : OnsetsMono [mkEvent 5 (some 10) 1] :=
  c8_onsets_mono scenALog 1 100
    (by norm_num [scenALog, trigRow, mkRow, List.pairwise_cons])
    "AttendUL_COR" [mkEvent 5 (some 10) 1]
    (by
      simp [process_events, normalizeRows, findTrigger, scenALog, trigRow, mkRow,
        scanFrom, step, newStatePass, fixationPass, chainPass, postswitchPass,
        classify, targetNameOf, SplitEv.append1, mkEvent, getBucket,
        SplitEv.toList, List.lookup, List.find?, initState, initSplitEv])

/-- Counterexample to C8 as stated for all logs: on a log whose two
left-hand response initiations have decreasing timestamps, the run
returns and the HandLeft bucket onsets decrease. -/
theorem c8_counterexample :
    getBucket (process_events c8log 1 10) "HandLeft" =
      some [mkEvent 10 none 1, mkEvent 5 none 1] ∧
    ¬ OnsetsMono [mkEvent 10 none 1, mkEvent 5 none 1] := by
  constructor
  · simp [process_events, normalizeRows, findTrigger, c8log, trigRow, mkRow,
      scanFrom, step, newStatePass, fixationPass, chainPass, postswitchPass,
      classify, targetNameOf, SplitEv.append1, mkEvent, getBucket,
      SplitEv.toList, List.lookup, List.find?, initState, initSplitEv]
  · simp [OnsetsMono, mkEvent, List.pairwise_cons]
    norm_num

end CurveTracing
